import Mathlib

/-!
# Pool manager of `mem_pool.c`

A shallow embedding of the pool manager (`src/mem_pool.c`) and theorems about it.

Modelling conventions.

* A `node_pt` is the index of a node-heap slot (`none` is `NULL`); an allocation handle
  (`alloc_pt`) is the index of the slot it points to.  Pointers therefore survive a
  `realloc` of the node heap.
* `node_heap` and `gap_ix` are total stores indexed by `Nat`.  A cell that was never
  written reads as the all-zero cell (also the cells a `realloc` adds and the cells behind a
  block), and a write at any index lands in that cell; `total_nodes` and `gap_ix_capacity`
  are only the numbers the code keeps.
* The lengths of the two blocks as the allocator made them are kept beside the stores, in
  `blocks_t`, and every write to a cell is compared with them.  A write to the cell right
  behind a block (index = length) lands on the allocator's bookkeeping: it is recorded in
  `overrun`, and from then on a call of `calloc`, `realloc` or `free` for this pool does not
  return (the C library stops the process when it meets the overwritten bookkeeping).  A
  write farther behind a block, such as `gap_ix[4294967295]`, is outside the memory of the
  process and stops it at once.  A call that does not return and a write that stops the
  process both set `stopped`; reads are not recorded.  The functions go on computing after
  `stopped` is set, and `returned` gives what the caller sees.  Only one pool is followed:
  what the overrun of one pool does to the calls for another one is not represented.
* `size_t` is 64 bits wide, `unsigned` and `int` are 32 bits wide; the operations on them
  wrap around at `2^64` and `2^32` (`inc32_eq_mod` and its companions state them as
  remainders).
* `malloc`, `calloc` and `realloc` are taken to find memory; the branches that only report
  an allocation failure are not represented.
* `float` is the IEEE single format with rounding to nearest, ties to even; the fill-factor
  tests are evaluated in it (`fill_factor_reached`, `store_fill_factor_exceeded`).
-/

set_option linter.unusedVariables false

namespace MemPool

/-! ## Machine arithmetic -/

/-- Number of values of an `unsigned`. -/
def UINT_MOD : Nat := 4294967296

/-- Number of values of a `size_t`. -/
def SIZE_MOD : Nat := 18446744073709551616

/-- Unsigned `x++` (for `x` below `2^32`: the successor modulo `2^32`). -/
def inc32 (x : Nat) : Nat := if x + 1 = 4294967296 then 0 else x + 1

/-- Unsigned `x--` (for `x` below `2^32`: the predecessor modulo `2^32`). -/
def dec32 (x : Nat) : Nat := if x = 0 then 4294967295 else x - 1

/-- Unsigned `x - 2` (for `x` below `2^32`: the difference modulo `2^32`). -/
def sub2_32 (x : Nat) : Nat := if 2 ≤ x then x - 2 else x + 4294967294

/-- Unsigned `x * 2` (for `x` below `2^32`: the product modulo `2^32`). -/
def dbl32 (x : Nat) : Nat := if x * 2 < 4294967296 then x * 2 else x * 2 - 4294967296

/-- The `size_t` sum `a + b` (for `a`, `b` below `2^64`: the sum modulo `2^64`). -/
def add64 (a b : Nat) : Nat :=
  if a + b < 18446744073709551616 then a + b else a + b - 18446744073709551616

/-- The `size_t` difference `a - b` (for `a`, `b` below `2^64`: the difference modulo
`2^64`). -/
def sub64 (a b : Nat) : Nat := if b ≤ a then a - b else a + 18446744073709551616 - b

/-- The `size_t` decrement `x--` (for `x` below `2^64`: the predecessor modulo `2^64`). -/
def dec64 (x : Nat) : Nat := if x = 0 then 18446744073709551615 else x - 1

/-- Conversion of a `size_t` value to `int` (the low 32 bits, two's complement). -/
def int_of_size_t (x : Nat) : Int :=
  if x % 4294967296 < 2147483648 then ((x % 4294967296 : Nat) : Int)
  else ((x % 4294967296 : Nat) : Int) - 4294967296

/-- Conversion of an `int` value to `size_t`. -/
def size_t_of_int (i : Int) : Nat := (i % 18446744073709551616).toNat

/-! ## Single precision -/

/-- The multiple of `2 ^ k` nearest to `n`; when `n` is halfway between two multiples, the
even one. -/
def round_even (k n : Nat) : Nat :=
  if 2 ^ k < 2 * (n % 2 ^ k) ∨ (2 * (n % 2 ^ k) = 2 ^ k ∧ (n / 2 ^ k) % 2 = 1) then
    (n / 2 ^ k + 1) * 2 ^ k
  else n / 2 ^ k * 2 ^ k

/-- The number of binary digits that `n` has beyond the 24 digits of a `float`
significand (for `n` below `2 ^ (24 + fuel)`). -/
def excess_bits : Nat → Nat → Nat
  | 0, _ => 0
  | fuel + 1, n => if n < 16777216 then 0 else excess_bits fuel (n / 2) + 1

/-- The number `n` rounded to 24 significant binary digits, to nearest, ties to even: the
`float` nearest to `n`.  It is the value of `(float) n` for an `unsigned` or `size_t`
value `n`, and the value a `float` operation with the exact result `n` returns. -/
def float_round (n : Nat) : Nat := round_even (excess_bits 128 n) n

/-- The test `used >= total * 0.75f` of `_mem_resize_node_heap` and `_mem_resize_gap_ix`
for the `unsigned` counters `used` and `total`.  Both are converted to `float`; the
product of `(float) total` and `0.75f` is rounded to `float`.  The comparison is written
with four times both sides, which are whole numbers: the exact product times four is
`3 * (float) total`, and rounding to 24 digits commutes with the factor four. -/
def fill_factor_reached (used total : Nat) : Prop :=
  float_round (3 * float_round total) ≤ 4 * float_round used

instance (used total : Nat) : Decidable (fill_factor_reached used total) := by
  unfold fill_factor_reached; infer_instance

/-- The test `((float) size / capacity) > 0.75f` of `_mem_resize_pool_store`.  Both
operands are converted to `float` and the quotient is rounded to `float`.  The `float`
right above `0.75` is `0.75 + 2^-24` and the significand of `0.75` is even, so the rounded
quotient is above `0.75` exactly when the exact quotient is above `0.75 + 2^-25`, that is
when `2^25 * size > (3 * 2^23 + 1) * capacity`.  With a zero divisor the quotient is
infinite for a positive dividend, and not a number (every comparison false) for zero. -/
def store_fill_factor_exceeded (size capacity : Nat) : Prop :=
  if float_round capacity = 0 then float_round size ≠ 0
  else 25165825 * float_round capacity < 33554432 * float_round size

instance (size capacity : Nat) : Decidable (store_fill_factor_exceeded size capacity) := by
  unfold store_fill_factor_exceeded; infer_instance

/-! ## Types -/

/-- Modelled from the spec: the enum `alloc_policy` of `mem_pool.h` (not in `src/`), with
the two placement policies the spec names. -/
inductive alloc_policy where
  | FIRST_FIT
  | BEST_FIT
deriving DecidableEq, Repr

/-- Modelled from the spec: the enum `alloc_status` of `mem_pool.h` (not in `src/`), with
the four status values the source returns. -/
inductive alloc_status where
  | ALLOC_OK
  | ALLOC_FAIL
  | ALLOC_CALLED_AGAIN
  | ALLOC_NOT_FREED
deriving DecidableEq, Repr

/-- Modelled from the spec: the struct `alloc_t` of `mem_pool.h` (not in `src/`): the size
of a span and its address, kept as a byte offset into the pool (`none` is `NULL`). -/
structure alloc_t where
  size : Nat
  mem : Option Nat
deriving DecidableEq, Repr

/-- Modelled from the spec: the struct `pool_t` of `mem_pool.h` (not in `src/`): policy,
total size, allocated bytes (both `size_t`), number of allocations and of gaps (both
`unsigned`).  The address of the backing storage is offset `0` and is not kept. -/
structure pool_t where
  policy : alloc_policy
  total_size : Nat
  alloc_size : Nat
  num_allocs : Nat
  num_gaps : Nat
deriving DecidableEq, Repr

/-- Modelled from the spec: the struct `pool_segment_t` of `mem_pool.h` (not in `src/`):
size and allocated flag of one segment. -/
structure pool_segment_t where
  size : Nat
  allocated : Nat
deriving DecidableEq, Repr

/-- The struct `node_t`. -/
structure node_t where
  alloc_record : alloc_t
  used : Nat
  allocated : Nat
  next : Option Nat
  prev : Option Nat
deriving DecidableEq, Repr

/-- The struct `gap_t`. -/
structure gap_t where
  size : Nat
  node : Option Nat
deriving DecidableEq, Repr

/-- What the C library holds for the arrays of one manager, and what the writes to them
have done; the source has no variable for any of it.  `node_heap_len` and `gap_ix_len` are
the numbers of cells of the blocks as `calloc` or `realloc` last made them; `overrun` is
set once a write has landed on the cell right behind a block, `stopped` once the process
has been stopped. -/
structure blocks_t where
  node_heap_len : Nat
  gap_ix_len : Nat
  overrun : Bool
  stopped : Bool
deriving DecidableEq, Repr

/-- The struct `pool_mgr_t`, and with it the record `blocks` of the allocator's side, which
is not a member of the struct. -/
structure pool_mgr_t where
  pool : pool_t
  node_heap : Nat → node_t
  total_nodes : Nat
  used_nodes : Nat
  gap_ix : Nat → gap_t
  gap_ix_capacity : Nat
  blocks : blocks_t

/-- The static variables `pool_store` (only whether it is allocated), `pool_store_size`
and `pool_store_capacity`. -/
structure pool_store_t where
  allocated : Bool
  pool_store_size : Nat
  pool_store_capacity : Nat
deriving DecidableEq, Repr

open alloc_policy alloc_status

/-! ## Constants -/

def MEM_EXPAND_FACTOR : Nat := 2
def MEM_POOL_STORE_INIT_CAPACITY : Nat := 20
def MEM_NODE_HEAP_INIT_CAPACITY : Nat := 40
def MEM_GAP_IX_INIT_CAPACITY : Nat := 40

/-! ## Stores and loops -/

/-- A zeroed node, as `calloc` leaves it. -/
def node_zero : node_t :=
  { alloc_record := { size := 0, mem := none }, used := 0, allocated := 0,
    next := none, prev := none }

/-- A zeroed gap entry. -/
def gap_zero : gap_t := { size := 0, node := none }

/-- The store `f` with cell `i` replaced by `v`. -/
def setAt {α : Type} (f : Nat → α) (i : Nat) (v : α) : Nat → α :=
  fun k => if k = i then v else f k

/-- Runs `body i`, `body (i + 1)`, ... for `n` consecutive indices. -/
def forLoopAux {σ : Type} (body : Nat → σ → σ) : Nat → Nat → σ → σ
  | 0, _, s => s
  | n + 1, i, s => forLoopAux body n (i + 1) (body i s)

/-- The loop `for (i = lo; i < hi; i++) body`. -/
def forLoop {σ : Type} (lo hi : Nat) (body : Nat → σ → σ) (s : σ) : σ :=
  forLoopAux body (hi - lo) lo s

/-- Looks for the first index satisfying `p` among `n` consecutive indices from `i`. -/
def findFirstAux (p : Nat → Bool) : Nat → Nat → Option Nat
  | 0, _ => none
  | n + 1, i => if p i then some i else findFirstAux p n (i + 1)

/-- The loop `for (i = 0; i < n; i++) if (p i) { found = i; break; }`. -/
def findFirst (p : Nat → Bool) (n : Nat) : Option Nat :=
  findFirstAux p n 0

/-! ## Field writes -/

/-- The record after a write to cell `i` of a block of `len` cells: unchanged for a cell
of the block, `overrun` for the cell right behind it, `stopped` for a cell farther out. -/
def note_write (b : blocks_t) (len i : Nat) : blocks_t :=
  if i < len then b
  else if i = len then { b with overrun := true }
  else { b with stopped := true }

/-- The record after a call of `calloc`, `realloc` or `free`: the call does not return
once a block of the pool has been overrun. -/
def note_call (b : blocks_t) : blocks_t :=
  if b.overrun then { b with stopped := true } else b

/-- The write `pool_mgr->node_heap[i] = n`. -/
def set_node (mgr : pool_mgr_t) (i : Nat) (n : node_t) : pool_mgr_t :=
  { mgr with node_heap := setAt mgr.node_heap i n,
             blocks := note_write mgr.blocks mgr.blocks.node_heap_len i }

/-- The write `node->used = v` for the node in slot `i`. -/
def set_used (mgr : pool_mgr_t) (i v : Nat) : pool_mgr_t :=
  set_node mgr i { mgr.node_heap i with used := v }

/-- The write `node->allocated = v` for the node in slot `i`. -/
def set_allocated (mgr : pool_mgr_t) (i v : Nat) : pool_mgr_t :=
  set_node mgr i { mgr.node_heap i with allocated := v }

/-- The write `node->alloc_record.size = v` for the node in slot `i`. -/
def set_size (mgr : pool_mgr_t) (i v : Nat) : pool_mgr_t :=
  set_node mgr i
    { mgr.node_heap i with alloc_record := { (mgr.node_heap i).alloc_record with size := v } }

/-- The write `node->next = v` for the node in slot `i`. -/
def set_next (mgr : pool_mgr_t) (i : Nat) (v : Option Nat) : pool_mgr_t :=
  set_node mgr i { mgr.node_heap i with next := v }

/-- The write `node->prev = v` for the node in slot `i`. -/
def set_prev (mgr : pool_mgr_t) (i : Nat) (v : Option Nat) : pool_mgr_t :=
  set_node mgr i { mgr.node_heap i with prev := v }

/-- The write `pool_mgr->gap_ix[i] = g`. -/
def set_gap (mgr : pool_mgr_t) (i : Nat) (g : gap_t) : pool_mgr_t :=
  { mgr with gap_ix := setAt mgr.gap_ix i g,
             blocks := note_write mgr.blocks mgr.blocks.gap_ix_len i }

/-- The write `pool_mgr->gap_ix[i].node = v`. -/
def set_gap_node (mgr : pool_mgr_t) (i : Nat) (v : Option Nat) : pool_mgr_t :=
  set_gap mgr i { mgr.gap_ix i with node := v }

/-- The write `pool_mgr->gap_ix[i].size = v`. -/
def set_gap_size (mgr : pool_mgr_t) (i v : Nat) : pool_mgr_t :=
  set_gap mgr i { mgr.gap_ix i with size := v }

/-- The write `pool_mgr->gap_ix_capacity = v`. -/
def set_gap_ix_capacity (mgr : pool_mgr_t) (v : Nat) : pool_mgr_t :=
  { mgr with gap_ix_capacity := v }

/-- The write `pool_mgr->total_nodes = v`. -/
def set_total_nodes (mgr : pool_mgr_t) (v : Nat) : pool_mgr_t :=
  { mgr with total_nodes := v }

/-- The write `pool_mgr->used_nodes = v`. -/
def set_used_nodes (mgr : pool_mgr_t) (v : Nat) : pool_mgr_t :=
  { mgr with used_nodes := v }

/-- The write `pool_mgr->pool.num_gaps = v`. -/
def set_num_gaps (mgr : pool_mgr_t) (v : Nat) : pool_mgr_t :=
  { mgr with pool := { mgr.pool with num_gaps := v } }

/-- The write `pool_mgr->pool.num_allocs = v`. -/
def set_num_allocs (mgr : pool_mgr_t) (v : Nat) : pool_mgr_t :=
  { mgr with pool := { mgr.pool with num_allocs := v } }

/-- The write `pool_mgr->pool.alloc_size = v`. -/
def set_alloc_size (mgr : pool_mgr_t) (v : Nat) : pool_mgr_t :=
  { mgr with pool := { mgr.pool with alloc_size := v } }

/-- The write `pool_mgr->pool.total_size = v`. -/
def set_total_size (mgr : pool_mgr_t) (v : Nat) : pool_mgr_t :=
  { mgr with pool := { mgr.pool with total_size := v } }

/-- The write `pool_mgr->pool.policy = v`. -/
def set_policy (mgr : pool_mgr_t) (v : alloc_policy) : pool_mgr_t :=
  { mgr with pool := { mgr.pool with policy := v } }

/-- The write `node->alloc_record.mem = v` for the node in slot `i`. -/
def set_mem (mgr : pool_mgr_t) (i : Nat) (v : Option Nat) : pool_mgr_t :=
  set_node mgr i
    { mgr.node_heap i with alloc_record := { (mgr.node_heap i).alloc_record with mem := v } }

/-- The read `node->alloc_record.size` for the node in slot `i`. -/
def node_size (mgr : pool_mgr_t) (i : Nat) : Nat := (mgr.node_heap i).alloc_record.size

/-- The assignment of a block of `len` cells, obtained from `calloc` or `realloc`, to
`pool_mgr->node_heap`. -/
def alloc_node_heap (mgr : pool_mgr_t) (len : Nat) : pool_mgr_t :=
  { mgr with blocks := { note_call mgr.blocks with node_heap_len := len } }

/-- The assignment of a block of `len` cells, obtained from `calloc` or `realloc`, to
`pool_mgr->gap_ix`. -/
def alloc_gap_ix (mgr : pool_mgr_t) (len : Nat) : pool_mgr_t :=
  { mgr with blocks := { note_call mgr.blocks with gap_ix_len := len } }

/-- What the caller of a function sees: the result `r` when the process got to the end of
the call, nothing (`none`) when it was stopped. -/
def returned {α : Type} (r : α × pool_mgr_t) : Option (α × pool_mgr_t) :=
  if r.2.blocks.stopped then none else some r

/-! ## Static functions -/

/-- The function `_mem_resize_pool_store`. -/
def _mem_resize_pool_store (store : pool_store_t) : alloc_status × pool_store_t :=
  if store_fill_factor_exceeded store.pool_store_size store.pool_store_capacity then
    (ALLOC_OK, { store with pool_store_capacity := dbl32 store.pool_store_capacity })
  else (ALLOC_OK, store)

/-- The function `_mem_resize_node_heap`; the new block has `total_nodes * 2` cells. -/
def _mem_resize_node_heap (pool_mgr : pool_mgr_t) : alloc_status × pool_mgr_t :=
  if fill_factor_reached pool_mgr.used_nodes pool_mgr.total_nodes then
    (ALLOC_OK, set_total_nodes (alloc_node_heap pool_mgr (dbl32 pool_mgr.total_nodes))
      (dbl32 pool_mgr.total_nodes))
  else (ALLOC_OK, pool_mgr)

/-- The function `_mem_resize_gap_ix`; its test reads `used_nodes` and `total_nodes`, and
the new block has `gap_ix_capacity * 2` cells. -/
def _mem_resize_gap_ix (pool_mgr : pool_mgr_t) : alloc_status × pool_mgr_t :=
  if fill_factor_reached pool_mgr.used_nodes pool_mgr.total_nodes then
    (ALLOC_OK, set_gap_ix_capacity (alloc_gap_ix pool_mgr (dbl32 pool_mgr.gap_ix_capacity))
      (dbl32 pool_mgr.gap_ix_capacity))
  else (ALLOC_OK, pool_mgr)

/-- One pass of the inner statement of `_mem_sort_gap_ix` at indices `i`, `j`: when entry `j`
is smaller than entry `j - 1`, entries `j` and `i` are exchanged. -/
def sort_step (i j : Nat) (pool_mgr : pool_mgr_t) : pool_mgr_t :=
  if (pool_mgr.gap_ix j).size < (pool_mgr.gap_ix (j - 1)).size then
    let gap := pool_mgr.gap_ix j
    let pool_mgr := set_gap pool_mgr j (pool_mgr.gap_ix i)
    set_gap pool_mgr i gap
  else pool_mgr

/-- The function `_mem_sort_gap_ix`: `i` runs from 1 below `num_gaps - 1`, `j` from 1 below
`num_gaps - 2`, both bounds in unsigned arithmetic. -/
def _mem_sort_gap_ix (pool_mgr : pool_mgr_t) : alloc_status × pool_mgr_t :=
  (ALLOC_OK,
    forLoop 1 (dec32 pool_mgr.pool.num_gaps)
      (fun i m => forLoop 1 (sub2_32 pool_mgr.pool.num_gaps) (fun j m => sort_step i j m) m)
      pool_mgr)

/-- The function `_mem_add_to_gap_ix`: the entry is written at index `gap_ix_capacity`. -/
def _mem_add_to_gap_ix (pool_mgr : pool_mgr_t) (size : Nat) (node : Nat) :
    alloc_status × pool_mgr_t :=
  let r := _mem_resize_gap_ix pool_mgr
  if r.1 ≠ ALLOC_OK then (ALLOC_FAIL, r.2) else
  let pool_mgr := r.2
  let pool_mgr := set_used pool_mgr node 1
  let pool_mgr := set_allocated pool_mgr node 0
  let pool_mgr := set_size pool_mgr node size
  let pool_mgr := set_gap_node pool_mgr pool_mgr.gap_ix_capacity (some node)
  let pool_mgr := set_gap_size pool_mgr pool_mgr.gap_ix_capacity size
  let pool_mgr := set_num_gaps pool_mgr (inc32 pool_mgr.pool.num_gaps)
  _mem_sort_gap_ix pool_mgr

/-- The second loop of `_mem_remove_from_gap_ix`:
`for (i = 1; i < gap_ix_capacity; i++) gap_ix[i-1] = gap_ix[i]`. -/
def shift_gap_ix (pool_mgr : pool_mgr_t) : pool_mgr_t :=
  forLoop 1 pool_mgr.gap_ix_capacity (fun i m => set_gap m (i - 1) (m.gap_ix i)) pool_mgr

/-- The function `_mem_remove_from_gap_ix`.  Its first loop only computes the local `temp`,
which nothing reads; the second loop copies every entry from index 1 below
`gap_ix_capacity` one position down, whatever `node` is.  The last two writes go to index
`num_gaps` after the decrement, which is 4294967295 when `num_gaps` was 0. -/
def _mem_remove_from_gap_ix (pool_mgr : pool_mgr_t) (size : Nat) (node : Nat) :
    alloc_status × pool_mgr_t :=
  let pool_mgr := shift_gap_ix pool_mgr
  let pool_mgr := set_num_gaps pool_mgr (dec32 pool_mgr.pool.num_gaps)
  let pool_mgr := set_gap_ix_capacity pool_mgr (dec32 pool_mgr.gap_ix_capacity)
  let pool_mgr := set_gap_node pool_mgr pool_mgr.pool.num_gaps none
  let pool_mgr := set_gap_size pool_mgr pool_mgr.pool.num_gaps 0
  (ALLOC_OK, pool_mgr)

/-! ## User-facing functions -/

/-- The function `mem_init` on the static variables. -/
def mem_init (store : pool_store_t) : alloc_status × pool_store_t :=
  if store.allocated then (ALLOC_CALLED_AGAIN, store)
  else (ALLOC_OK, { store with allocated := true,
                               pool_store_capacity := MEM_POOL_STORE_INIT_CAPACITY })

/-- The static variables before `mem_init`. -/
def pool_store_static : pool_store_t :=
  { allocated := false, pool_store_size := 0, pool_store_capacity := 0 }

/-- A manager as `calloc(1, sizeof(pool_mgr_t))` returns it: every field zero, no block
for the arrays yet. -/
def pool_mgr_zero : pool_mgr_t :=
  { pool := { policy := FIRST_FIT, total_size := 0, alloc_size := 0, num_allocs := 0,
              num_gaps := 0 },
    node_heap := fun _ => node_zero, total_nodes := 0, used_nodes := 0,
    gap_ix := fun _ => gap_zero, gap_ix_capacity := 0,
    blocks := { node_heap_len := 0, gap_ix_len := 0, overrun := false, stopped := false } }

/-- The manager `mem_pool_open` builds (from the `calloc` of the manager to the assignment
of `policy`). -/
def pool_mgr_open (size : Nat) (policy : alloc_policy) : pool_mgr_t :=
  let pool_mgr := pool_mgr_zero
  let pool_mgr := alloc_node_heap pool_mgr MEM_NODE_HEAP_INIT_CAPACITY
  let pool_mgr := alloc_gap_ix pool_mgr MEM_GAP_IX_INIT_CAPACITY
  let pool_mgr := set_gap_ix_capacity pool_mgr MEM_GAP_IX_INIT_CAPACITY
  let pool_mgr := set_next pool_mgr 0 none
  let pool_mgr := set_prev pool_mgr 0 none
  let pool_mgr := set_used pool_mgr 0 1
  let pool_mgr := set_allocated pool_mgr 0 0
  let pool_mgr := set_size pool_mgr 0 size
  let pool_mgr := set_mem pool_mgr 0 (some 0)
  let pool_mgr := (_mem_add_to_gap_ix pool_mgr size 0).2
  let pool_mgr := set_total_nodes pool_mgr MEM_NODE_HEAP_INIT_CAPACITY
  let pool_mgr := set_used_nodes pool_mgr 1
  let pool_mgr := set_alloc_size pool_mgr size
  let pool_mgr := set_total_size pool_mgr size
  let pool_mgr := set_num_gaps pool_mgr 1
  let pool_mgr := set_num_allocs pool_mgr 0
  set_policy pool_mgr policy

/-- The function `mem_pool_open`: `none` is the `NULL` result. -/
def mem_pool_open (store : pool_store_t) (size : Nat) (policy : alloc_policy) :
    Option (pool_mgr_t × pool_store_t) :=
  if !store.allocated then none else
  let rs := _mem_resize_pool_store store
  if rs.1 ≠ ALLOC_OK then none else
  let store := rs.2
  let pool_mgr := pool_mgr_open size policy
  some (pool_mgr, { store with pool_store_size := inc32 store.pool_store_size })

/-- The tests of `mem_pool_close` and the status they lead to: the argument `none` is a
`NULL` pool; the second component is the pool after the call, `none` once it has been
released.  The calls of `free` that come before `ALLOC_OK` are in `mem_pool_close_run`. -/
def mem_pool_close (pool : Option pool_mgr_t) : alloc_status × Option pool_mgr_t :=
  match pool with
  | none => (ALLOC_NOT_FREED, none)
  | some mgr =>
    if mgr.pool.num_gaps = 1 then (ALLOC_NOT_FREED, some mgr)
    else if mgr.pool.num_allocs ≠ 0 then (ALLOC_NOT_FREED, some mgr)
    else (ALLOC_OK, none)

/-- The function `mem_pool_close` with its calls of `free`: `none` when the call does not
return.  The two rejections come before the first `free`; behind them the pool memory, the
node heap, the gap index and the manager are freed. -/
def mem_pool_close_run (pool : Option pool_mgr_t) :
    Option (alloc_status × Option pool_mgr_t) :=
  match pool with
  | none => some (ALLOC_NOT_FREED, none)
  | some mgr =>
    if mgr.blocks.stopped then none
    else if mgr.pool.num_gaps = 1 then some (ALLOC_NOT_FREED, some mgr)
    else if mgr.pool.num_allocs ≠ 0 then some (ALLOC_NOT_FREED, some mgr)
    else if (note_call mgr.blocks).stopped then none
    else some (ALLOC_OK, none)

/-- The FIRST_FIT loop of `mem_new_alloc`: the lowest slot below `total_nodes` with
`allocated == 0` and `size` at least the request. -/
def first_fit_scan (mgr : pool_mgr_t) (size : Nat) : Option Nat :=
  findFirst (fun i => decide ((mgr.node_heap i).allocated = 0 ∧ size ≤ node_size mgr i))
    mgr.total_nodes

/-- One iteration of the BEST_FIT loop of `mem_new_alloc` on the pair `(node, best_ix)`. -/
def best_fit_step (mgr : pool_mgr_t) (size : Nat) (i : Nat) (st : Option Nat × Nat) :
    Option Nat × Nat :=
  if (mgr.node_heap i).allocated = 0 ∧ size ≤ node_size mgr i
      ∧ node_size mgr i < node_size mgr st.2 then
    ((mgr.gap_ix i).node, i)
  else st

/-- The BEST_FIT loop of `mem_new_alloc`, started with `node = gap_ix[0].node` and
`best_ix = 0`. -/
def best_fit_scan (mgr : pool_mgr_t) (size : Nat) : Option Nat :=
  (forLoop 0 mgr.gap_ix_capacity (best_fit_step mgr size) ((mgr.gap_ix 0).node, 0)).1

/-- The node `mem_new_alloc` gets for the allocation, by the policy of the pool. -/
def policy_scan (mgr : pool_mgr_t) (size : Nat) : Option Nat :=
  match mgr.pool.policy with
  | FIRST_FIT => first_fit_scan mgr size
  | BEST_FIT => best_fit_scan mgr size

/-- The function `mem_new_alloc`: the first component is the returned handle (`none` is
`NULL`), the second the manager after the call. -/
def mem_new_alloc (pool : pool_mgr_t) (size : Nat) : Option Nat × pool_mgr_t :=
  let mgr := pool
  if mgr.pool.num_gaps = 0 then (none, mgr) else
  let r := _mem_resize_node_heap mgr
  if r.1 ≠ ALLOC_OK then (none, r.2) else
  let mgr := r.2
  if mgr.total_nodes < mgr.used_nodes then (none, mgr) else
  match policy_scan mgr size with
  | none => (none, mgr)
  | some node =>
    let mgr := set_num_allocs mgr (inc32 mgr.pool.num_allocs)
    let mgr := set_alloc_size mgr (add64 mgr.pool.alloc_size size)
    let newGapSize : Int := int_of_size_t (sub64 (node_size mgr node) size)
    let r := _mem_remove_from_gap_ix mgr size node
    if r.1 ≠ ALLOC_OK then (none, r.2) else
    let mgr := r.2
    let mgr := set_allocated mgr node 1
    let mgr := set_size mgr node size
    if newGapSize ≠ 0 then
      match findFirst (fun i => decide ((mgr.node_heap i).used = 0)) mgr.total_nodes with
      | none => (none, mgr)
      | some newNode =>
        let mgr := set_used_nodes mgr (inc32 mgr.used_nodes)
        let mgr := set_next mgr node (some newNode)
        let mgr := set_prev mgr newNode (some node)
        let r := _mem_add_to_gap_ix mgr (size_t_of_int newGapSize) newNode
        if r.1 ≠ ALLOC_OK then (none, r.2) else
        (some node, r.2)
    else (some node, mgr)

/-- Step 1 of `mem_del_alloc` (merge with the successor): the manager and `node_to_add`
after it.  Nothing before the list update writes `node_to_del->next`, so it still equals the
local `next`. -/
def del_merge_next (mgr : pool_mgr_t) (node_to_del : Nat) (next : Option Nat) :
    pool_mgr_t × Option Nat :=
  match next with
  | none => (mgr, none)
  | some nx =>
    if (mgr.node_heap nx).allocated = 0 then
      let mgr := set_size mgr node_to_del (add64 (node_size mgr node_to_del) (node_size mgr nx))
      let mgr := set_used mgr nx 0
      let mgr := set_used_nodes mgr (dec32 mgr.used_nodes)
      let mgr :=
        match (mgr.node_heap nx).next with
        | some nn =>
          let mgr := set_prev mgr nn (some node_to_del)
          set_next mgr node_to_del (some nn)
        | none => set_next mgr node_to_del none
      let mgr := set_next mgr nx none
      let mgr := set_prev mgr nx none
      (mgr, some node_to_del)
    else (mgr, none)

/-- Step 2 of `mem_del_alloc` (merge into the predecessor) and the final insertion.  The
local `prev` is set to `NULL` before `node_to_add = prev`, so `node_to_add` is `NULL`
whenever this step runs.  `else_add` is `node_to_add` as step 1 left it. -/
def del_merge_prev (mgr : pool_mgr_t) (node_to_del : Nat) (next prev else_add : Option Nat) :
    alloc_status × pool_mgr_t × Option Nat :=
  match prev with
  | none => (ALLOC_OK, mgr, else_add)
  | some pv =>
    if (mgr.node_heap pv).allocated = 0 then
      let r := _mem_remove_from_gap_ix mgr (node_size mgr pv) pv
      if r.1 ≠ ALLOC_OK then (ALLOC_FAIL, r.2, else_add) else
      let mgr := r.2
      let mgr := set_size mgr pv (add64 (node_size mgr pv) (node_size mgr node_to_del))
      let mgr := set_used mgr node_to_del 0
      let mgr := set_used_nodes mgr (dec32 mgr.used_nodes)
      let mgr :=
        match (mgr.node_heap node_to_del).next with
        | some _ =>
          let mgr := set_next mgr pv next
          match (mgr.node_heap node_to_del).next with
          | some dn => set_prev mgr dn (some pv)
          | none => mgr
        | none => set_next mgr pv none
      (ALLOC_OK, mgr, none)
    else (ALLOC_OK, mgr, else_add)

/-- The function `mem_del_alloc`. -/
def mem_del_alloc (pool : pool_mgr_t) (alloc : Nat) : alloc_status × pool_mgr_t :=
  let mgr := pool
  match findFirst (fun i => decide (i = alloc)) mgr.total_nodes with
  | none => (ALLOC_FAIL, mgr)
  | some node_to_del =>
    let next := (mgr.node_heap node_to_del).next
    let prev := (mgr.node_heap node_to_del).prev
    let mgr := set_allocated mgr node_to_del 0
    let mgr := set_num_allocs mgr (dec32 mgr.pool.num_allocs)
    let mgr := set_alloc_size mgr (dec64 mgr.pool.alloc_size)
    let r1 := del_merge_next mgr node_to_del next
    let r2 := del_merge_prev r1.1 node_to_del next prev r1.2
    if r2.1 ≠ ALLOC_OK then (ALLOC_FAIL, r2.2.1) else
    match r2.2.2 with
    | some node_to_add =>
      let r := _mem_add_to_gap_ix r2.2.1 (node_size r2.2.1 node_to_add) node_to_add
      if r.1 ≠ ALLOC_OK then (ALLOC_FAIL, r.2) else (ALLOC_OK, r.2)
    | none => (ALLOC_OK, r2.2.1)

/-- The loop and the two assignments at the end of `mem_inspect_pool`: the segment array
and `num_segments`.  Segment `i` is read from node-heap slot `i`, for `i` below
`used_nodes`. -/
def inspect_segments (pool : pool_mgr_t) : List pool_segment_t × Nat :=
  ((List.range pool.used_nodes).map
      (fun i => { size := node_size pool i, allocated := (pool.node_heap i).allocated }),
   pool.used_nodes)

/-- The function `mem_inspect_pool`: `none` when the call does not return.  It starts with
`calloc` for the segment array; the `assert` on the pointer holds whenever `calloc`
returns. -/
def mem_inspect_pool (pool : pool_mgr_t) : Option (List pool_segment_t × Nat) :=
  if pool.blocks.stopped then none
  else if (note_call pool.blocks).stopped then none
  else some (inspect_segments pool)

/-! ## Notions the claims are stated with -/

/-- The slots visited from `start` by following `next` links, at most `fuel` of them. -/
def list_from (heap : Nat → node_t) : Nat → Option Nat → List Nat
  | 0, _ => []
  | _ + 1, none => []
  | fuel + 1, some i => i :: list_from heap fuel (heap i).next

/-- The linked list of the pool: the slots reached from heap slot 0 by `next` links. -/
def node_list (mgr : pool_mgr_t) : List Nat :=
  list_from mgr.node_heap mgr.total_nodes (some 0)

/-- The sum of `alloc_record.size` over the nodes of the linked list. -/
def list_size_sum (mgr : pool_mgr_t) : Nat :=
  ((node_list mgr).map (node_size mgr)).sum

/-- Slot `i` holds a live gap: a used node that is not allocated. -/
def live_gap (mgr : pool_mgr_t) (i : Nat) : Prop :=
  (mgr.node_heap i).used = 1 ∧ (mgr.node_heap i).allocated = 0

instance (mgr : pool_mgr_t) (i : Nat) : Decidable (live_gap mgr i) := by
  unfold live_gap; infer_instance

/-- The first node in linked-list order that is a live gap of size at least `size`: the
node the FIRST_FIT policy is described to choose. -/
def first_fit_by_list (mgr : pool_mgr_t) (size : Nat) : Option Nat :=
  (node_list mgr).find? (fun i => decide (live_gap mgr i ∧ size ≤ node_size mgr i))

/-- The live entries of the gap index: its first `num_gaps` entries. -/
def live_gap_entries (mgr : pool_mgr_t) : List gap_t :=
  (List.range mgr.pool.num_gaps).map mgr.gap_ix

/-- A call on a pool: `mem_new_alloc` with a size, or `mem_del_alloc` with a handle. -/
inductive pool_call where
  | new_alloc (size : Nat)
  | del_alloc (alloc : Nat)
deriving DecidableEq, Repr

/-- What a call returned: a handle (`none` is `NULL`) or a status. -/
inductive call_result where
  | handle (h : Option Nat)
  | status (st : alloc_status)
deriving DecidableEq, Repr

/-- Performs one call. -/
def do_call (mgr : pool_mgr_t) : pool_call → call_result × pool_mgr_t
  | pool_call.new_alloc size => (call_result.handle (mem_new_alloc mgr size).1,
                                 (mem_new_alloc mgr size).2)
  | pool_call.del_alloc alloc => (call_result.status (mem_del_alloc mgr alloc).1,
                                  (mem_del_alloc mgr alloc).2)

/-- Performs the calls in order; returns what each returned and the final manager. -/
def run_calls (mgr : pool_mgr_t) : List pool_call → List call_result × pool_mgr_t
  | [] => ([], mgr)
  | c :: cs => ((do_call mgr c).1 :: (run_calls (do_call mgr c).2 cs).1,
                (run_calls (do_call mgr c).2 cs).2)

/-- Performs the calls in order as the caller sees them: `none` when one of them does not
return, else what each returned and the final manager. -/
def run_calls_checked (mgr : pool_mgr_t) :
    List pool_call → Option (List call_result × pool_mgr_t)
  | [] => if mgr.blocks.stopped then none else some ([], mgr)
  | c :: cs =>
    if (do_call mgr c).2.blocks.stopped then none
    else (run_calls_checked (do_call mgr c).2 cs).map
      (fun r => ((do_call mgr c).1 :: r.1, r.2))

/-- The static variables after `mem_init`. -/
def pool_store_ready : pool_store_t := (mem_init pool_store_static).2

/-- Scenario: a FIRST_FIT pool of 300 bytes, two allocations of 100 bytes, the first one
freed.  Slot 0 is then a gap of 100 bytes whose successor, slot 1, is allocated. -/
def calls_inner_gap : List pool_call :=
  [pool_call.new_alloc 100, pool_call.new_alloc 100, pool_call.del_alloc 0]

/-- Scenario: a FIRST_FIT pool of 300 bytes, an allocation of 100 bytes that is freed again
(slot 1, the remainder, is merged away and retired), then an allocation of all 300 bytes. -/
def calls_retired_slot : List pool_call :=
  [pool_call.new_alloc 100, pool_call.del_alloc 0, pool_call.new_alloc 300]

/-- Scenario: three allocations of 100 bytes, which use up a pool of 300 bytes; their nodes
are slots 0, 1 and 2, adjacent in the list in that order. -/
def calls_three_allocs : List pool_call :=
  [pool_call.new_alloc 100, pool_call.new_alloc 100, pool_call.new_alloc 100]

/-- The (size, allocated) pair of the node in slot `i`. -/
def segment_of (mgr : pool_mgr_t) (i : Nat) : pool_segment_t :=
  { size := node_size mgr i, allocated := (mgr.node_heap i).allocated }

/-- The (size, allocated) pairs of the nodes of the linked list, in list order: the
snapshot `mem_inspect_pool` is described to produce. -/
def list_segments (mgr : pool_mgr_t) : List pool_segment_t :=
  (node_list mgr).map (segment_of mgr)

/-- The node-heap slots below `total_nodes` that hold a live node (`used = 1`), in slot
order. -/
def live_slots (mgr : pool_mgr_t) : List Nat :=
  (List.range mgr.total_nodes).filter (fun i => decide ((mgr.node_heap i).used = 1))

/-- The sizes of the entries are non-decreasing. -/
def sizes_sorted (l : List gap_t) : Prop := (l.map gap_t.size).Pairwise (fun a b => a ≤ b)

instance (l : List gap_t) : Decidable (sizes_sorted l) := by
  unfold sizes_sorted; infer_instance

/-- The manager inside `mem_pool_open` just before its call of `_mem_add_to_gap_ix`: the
zeroed manager with the two arrays allocated, `gap_ix_capacity` set and node-heap slot 0
initialised. -/
def pool_mgr_before_add (size : Nat) : pool_mgr_t :=
  set_mem (set_size (set_allocated (set_used (set_prev (set_next
    (set_gap_ix_capacity
      (alloc_gap_ix (alloc_node_heap pool_mgr_zero MEM_NODE_HEAP_INIT_CAPACITY)
        MEM_GAP_IX_INIT_CAPACITY)
      MEM_GAP_IX_INIT_CAPACITY) 0 none) 0 none) 0 1) 0 0)
    0 size) 0 (some 0)

/-- A manager whose gap index holds exactly the entries (5, slot 1) and (9, slot 2), in
ascending order, with `num_gaps = 2` and `gap_ix_capacity = 2`; the list is slot 0
(allocated, 3 bytes), the two gaps, and slot 3 (allocated, 3 bytes).  Both arrays are
blocks of 40 cells. -/
def pool_mgr_two_gaps : pool_mgr_t :=
  { pool := { policy := FIRST_FIT, total_size := 20, alloc_size := 6, num_allocs := 2,
              num_gaps := 2 },
    node_heap := fun i =>
      if i = 0 then { alloc_record := { size := 3, mem := some 0 }, used := 1, allocated := 1,
                      next := some 1, prev := none }
      else if i = 1 then { alloc_record := { size := 5, mem := none }, used := 1,
                           allocated := 0, next := some 2, prev := some 0 }
      else if i = 2 then { alloc_record := { size := 9, mem := none }, used := 1,
                           allocated := 0, next := some 3, prev := some 1 }
      else if i = 3 then { alloc_record := { size := 3, mem := none }, used := 1,
                           allocated := 1, next := none, prev := some 2 }
      else node_zero,
    total_nodes := 40, used_nodes := 4,
    gap_ix := fun i =>
      if i = 0 then { size := 5, node := some 1 }
      else if i = 1 then { size := 9, node := some 2 }
      else gap_zero,
    gap_ix_capacity := 2,
    blocks := { node_heap_len := 40, gap_ix_len := 40, overrun := false, stopped := false } }

/-- A manager state with `used_nodes = 31457279` and `total_nodes = 41943040` (which is
`40 * 2^20`, a capacity the doublings reach) over a node-heap block of that many cells. -/
def pool_mgr_large_heap : pool_mgr_t :=
  set_used_nodes (set_total_nodes (alloc_node_heap pool_mgr_zero 41943040) 41943040) 31457279

/-! # Lemmas -/

set_option maxRecDepth 100000

/-! ## The wrap-around operations as remainders -/

theorem inc32_eq_mod (x : Nat) (h : x < 4294967296) : inc32 x = (x + 1) % 4294967296 := by
  unfold inc32; split <;> omega

theorem dec32_eq_mod (x : Nat) (h : x < 4294967296) :
    dec32 x = (x + 4294967295) % 4294967296 := by
  unfold dec32; split <;> omega

theorem sub2_32_eq_mod (x : Nat) (h : x < 4294967296) :
    sub2_32 x = (x + 4294967294) % 4294967296 := by
  unfold sub2_32; split <;> omega

theorem dbl32_eq_mod (x : Nat) (h : x < 4294967296) : dbl32 x = (x * 2) % 4294967296 := by
  unfold dbl32; split <;> omega

theorem add64_eq_mod (a b : Nat) (ha : a < 18446744073709551616)
    (hb : b < 18446744073709551616) : add64 a b = (a + b) % 18446744073709551616 := by
  unfold add64; split <;> omega

theorem sub64_eq_mod (a b : Nat) (ha : a < 18446744073709551616)
    (hb : b < 18446744073709551616) :
    sub64 a b = (a + (18446744073709551616 - b)) % 18446744073709551616 := by
  unfold sub64; split <;> omega

theorem dec64_eq_mod (x : Nat) (h : x < 18446744073709551616) :
    dec64 x = (x + 18446744073709551615) % 18446744073709551616 := by
  unfold dec64; split <;> omega

/-! ## Single precision on small numbers -/

theorem excess_bits_small (fuel n : Nat) (h : n < 16777216) : excess_bits fuel n = 0 := by
  cases fuel <;> simp [excess_bits, h]

theorem round_even_zero (n : Nat) : round_even 0 n = n := by
  simp [round_even, Nat.mod_one]

/-- A number below `2^24` is a `float`. -/
theorem float_round_small (n : Nat) (h : n < 16777216) : float_round n = n := by
  unfold float_round
  rw [excess_bits_small _ _ h, round_even_zero]

/-- While three times `total` is below `2^24` the test `used >= total * 0.75f` on counters
`used <= total` is exact. -/
theorem fill_factor_reached_small (used total : Nat) (hu : used < 16777216)
    (ht : 3 * total < 16777216) : fill_factor_reached used total ↔ 3 * total ≤ 4 * used := by
  unfold fill_factor_reached
  rw [float_round_small used hu, float_round_small total (by omega),
    float_round_small (3 * total) ht]

@[simp] theorem fill_factor_reached_zero : fill_factor_reached 0 0 := by decide

@[simp] theorem fill_factor_reached_fresh : ¬ fill_factor_reached 1 40 := by decide

theorem excess_bits_bound (fuel n : Nat) (h : 1 ≤ excess_bits fuel n) :
    2 ^ (excess_bits fuel n + 23) ≤ n := by
  induction fuel generalizing n with
  | zero => simp [excess_bits] at h
  | succ fuel ih =>
    unfold excess_bits at h ⊢
    by_cases hn : n < 16777216
    · simp [hn] at h
    · simp only [hn, if_false] at h ⊢
      by_cases hk : 1 ≤ excess_bits fuel (n / 2)
      · have := ih (n / 2) hk
        have h2 : 2 ^ (excess_bits fuel (n / 2) + 1 + 23)
            = 2 * 2 ^ (excess_bits fuel (n / 2) + 23) := by
          rw [show excess_bits fuel (n / 2) + 1 + 23 = (excess_bits fuel (n / 2) + 23) + 1 by omega,
            pow_succ]
          omega
        rw [h2]
        omega
      · have hz : excess_bits fuel (n / 2) = 0 := by omega
        rw [hz]
        simp
        omega

theorem round_even_le (k n : Nat) : 2 * round_even k n ≤ 2 * n + 2 ^ k := by
  have hpos : 0 < 2 ^ k := Nat.pow_pos (by decide)
  have hdm := Nat.div_add_mod n (2 ^ k)
  have hmul : (n / 2 ^ k + 1) * 2 ^ k = 2 ^ k * (n / 2 ^ k) + 2 ^ k := by ring
  have hmul2 : n / 2 ^ k * 2 ^ k = 2 ^ k * (n / 2 ^ k) := by ring
  unfold round_even
  split
  · rename_i hc
    rw [hmul]
    rcases hc with hc | hc
    · omega
    · omega
  · rw [hmul2]
    omega

/-- The rounding to `float` raises a number by at most one part in `2^24`. -/
theorem float_round_le (n : Nat) : 16777216 * float_round n ≤ 16777217 * n := by
  unfold float_round
  by_cases hk : 1 ≤ excess_bits 128 n
  · have h1 := excess_bits_bound 128 n hk
    have h2 := round_even_le (excess_bits 128 n) n
    have h3 : 2 ^ (excess_bits 128 n + 23) = 8388608 * 2 ^ excess_bits 128 n := by
      rw [pow_add]
      norm_num
      ring
    omega
  · have hz : excess_bits 128 n = 0 := by omega
    rw [hz, round_even_zero]
    omega

/-- A full node heap reaches the fill factor: the test `used >= total * 0.75f` holds
whenever `used = total`. -/
theorem fill_factor_reached_full (total : Nat) : fill_factor_reached total total := by
  unfold fill_factor_reached
  have := float_round_le (3 * float_round total)
  omega

/-! ## Reading a field after a write -/

@[simp] theorem set_node_pool (m : pool_mgr_t) (i : Nat) (n : node_t) :
    (set_node m i n).pool = m.pool := rfl
@[simp] theorem set_node_node_heap (m : pool_mgr_t) (i : Nat) (n : node_t) :
    (set_node m i n).node_heap = setAt m.node_heap i n := rfl
@[simp] theorem set_node_total_nodes (m : pool_mgr_t) (i : Nat) (n : node_t) :
    (set_node m i n).total_nodes = m.total_nodes := rfl
@[simp] theorem set_node_used_nodes (m : pool_mgr_t) (i : Nat) (n : node_t) :
    (set_node m i n).used_nodes = m.used_nodes := rfl
@[simp] theorem set_node_gap_ix (m : pool_mgr_t) (i : Nat) (n : node_t) :
    (set_node m i n).gap_ix = m.gap_ix := rfl
@[simp] theorem set_node_gap_ix_capacity (m : pool_mgr_t) (i : Nat) (n : node_t) :
    (set_node m i n).gap_ix_capacity = m.gap_ix_capacity := rfl
@[simp] theorem set_node_blocks (m : pool_mgr_t) (i : Nat) (n : node_t) :
    (set_node m i n).blocks = note_write m.blocks m.blocks.node_heap_len i := rfl
@[simp] theorem set_used_pool (m : pool_mgr_t) (i v : Nat) :
    (set_used m i v).pool = m.pool := rfl
@[simp] theorem set_used_node_heap (m : pool_mgr_t) (i v : Nat) :
    (set_used m i v).node_heap = setAt m.node_heap i { m.node_heap i with used := v } := rfl
@[simp] theorem set_used_total_nodes (m : pool_mgr_t) (i v : Nat) :
    (set_used m i v).total_nodes = m.total_nodes := rfl
@[simp] theorem set_used_used_nodes (m : pool_mgr_t) (i v : Nat) :
    (set_used m i v).used_nodes = m.used_nodes := rfl
@[simp] theorem set_used_gap_ix (m : pool_mgr_t) (i v : Nat) :
    (set_used m i v).gap_ix = m.gap_ix := rfl
@[simp] theorem set_used_gap_ix_capacity (m : pool_mgr_t) (i v : Nat) :
    (set_used m i v).gap_ix_capacity = m.gap_ix_capacity := rfl
@[simp] theorem set_used_blocks (m : pool_mgr_t) (i v : Nat) :
    (set_used m i v).blocks = note_write m.blocks m.blocks.node_heap_len i := rfl
@[simp] theorem set_allocated_pool (m : pool_mgr_t) (i v : Nat) :
    (set_allocated m i v).pool = m.pool := rfl
@[simp] theorem set_allocated_node_heap (m : pool_mgr_t) (i v : Nat) :
    (set_allocated m i v).node_heap = setAt m.node_heap i { m.node_heap i with allocated := v } := rfl
@[simp] theorem set_allocated_total_nodes (m : pool_mgr_t) (i v : Nat) :
    (set_allocated m i v).total_nodes = m.total_nodes := rfl
@[simp] theorem set_allocated_used_nodes (m : pool_mgr_t) (i v : Nat) :
    (set_allocated m i v).used_nodes = m.used_nodes := rfl
@[simp] theorem set_allocated_gap_ix (m : pool_mgr_t) (i v : Nat) :
    (set_allocated m i v).gap_ix = m.gap_ix := rfl
@[simp] theorem set_allocated_gap_ix_capacity (m : pool_mgr_t) (i v : Nat) :
    (set_allocated m i v).gap_ix_capacity = m.gap_ix_capacity := rfl
@[simp] theorem set_allocated_blocks (m : pool_mgr_t) (i v : Nat) :
    (set_allocated m i v).blocks = note_write m.blocks m.blocks.node_heap_len i := rfl
@[simp] theorem set_size_pool (m : pool_mgr_t) (i v : Nat) :
    (set_size m i v).pool = m.pool := rfl
@[simp] theorem set_size_node_heap (m : pool_mgr_t) (i v : Nat) :
    (set_size m i v).node_heap = setAt m.node_heap i
        { m.node_heap i with alloc_record := { (m.node_heap i).alloc_record with size := v } } := rfl
@[simp] theorem set_size_total_nodes (m : pool_mgr_t) (i v : Nat) :
    (set_size m i v).total_nodes = m.total_nodes := rfl
@[simp] theorem set_size_used_nodes (m : pool_mgr_t) (i v : Nat) :
    (set_size m i v).used_nodes = m.used_nodes := rfl
@[simp] theorem set_size_gap_ix (m : pool_mgr_t) (i v : Nat) :
    (set_size m i v).gap_ix = m.gap_ix := rfl
@[simp] theorem set_size_gap_ix_capacity (m : pool_mgr_t) (i v : Nat) :
    (set_size m i v).gap_ix_capacity = m.gap_ix_capacity := rfl
@[simp] theorem set_size_blocks (m : pool_mgr_t) (i v : Nat) :
    (set_size m i v).blocks = note_write m.blocks m.blocks.node_heap_len i := rfl
@[simp] theorem set_mem_pool (m : pool_mgr_t) (i : Nat) (v : Option Nat) :
    (set_mem m i v).pool = m.pool := rfl
@[simp] theorem set_mem_node_heap (m : pool_mgr_t) (i : Nat) (v : Option Nat) :
    (set_mem m i v).node_heap = setAt m.node_heap i
        { m.node_heap i with alloc_record := { (m.node_heap i).alloc_record with mem := v } } := rfl
@[simp] theorem set_mem_total_nodes (m : pool_mgr_t) (i : Nat) (v : Option Nat) :
    (set_mem m i v).total_nodes = m.total_nodes := rfl
@[simp] theorem set_mem_used_nodes (m : pool_mgr_t) (i : Nat) (v : Option Nat) :
    (set_mem m i v).used_nodes = m.used_nodes := rfl
@[simp] theorem set_mem_gap_ix (m : pool_mgr_t) (i : Nat) (v : Option Nat) :
    (set_mem m i v).gap_ix = m.gap_ix := rfl
@[simp] theorem set_mem_gap_ix_capacity (m : pool_mgr_t) (i : Nat) (v : Option Nat) :
    (set_mem m i v).gap_ix_capacity = m.gap_ix_capacity := rfl
@[simp] theorem set_mem_blocks (m : pool_mgr_t) (i : Nat) (v : Option Nat) :
    (set_mem m i v).blocks = note_write m.blocks m.blocks.node_heap_len i := rfl
@[simp] theorem set_next_pool (m : pool_mgr_t) (i : Nat) (v : Option Nat) :
    (set_next m i v).pool = m.pool := rfl
@[simp] theorem set_next_node_heap (m : pool_mgr_t) (i : Nat) (v : Option Nat) :
    (set_next m i v).node_heap = setAt m.node_heap i { m.node_heap i with next := v } := rfl
@[simp] theorem set_next_total_nodes (m : pool_mgr_t) (i : Nat) (v : Option Nat) :
    (set_next m i v).total_nodes = m.total_nodes := rfl
@[simp] theorem set_next_used_nodes (m : pool_mgr_t) (i : Nat) (v : Option Nat) :
    (set_next m i v).used_nodes = m.used_nodes := rfl
@[simp] theorem set_next_gap_ix (m : pool_mgr_t) (i : Nat) (v : Option Nat) :
    (set_next m i v).gap_ix = m.gap_ix := rfl
@[simp] theorem set_next_gap_ix_capacity (m : pool_mgr_t) (i : Nat) (v : Option Nat) :
    (set_next m i v).gap_ix_capacity = m.gap_ix_capacity := rfl
@[simp] theorem set_next_blocks (m : pool_mgr_t) (i : Nat) (v : Option Nat) :
    (set_next m i v).blocks = note_write m.blocks m.blocks.node_heap_len i := rfl
@[simp] theorem set_prev_pool (m : pool_mgr_t) (i : Nat) (v : Option Nat) :
    (set_prev m i v).pool = m.pool := rfl
@[simp] theorem set_prev_node_heap (m : pool_mgr_t) (i : Nat) (v : Option Nat) :
    (set_prev m i v).node_heap = setAt m.node_heap i { m.node_heap i with prev := v } := rfl
@[simp] theorem set_prev_total_nodes (m : pool_mgr_t) (i : Nat) (v : Option Nat) :
    (set_prev m i v).total_nodes = m.total_nodes := rfl
@[simp] theorem set_prev_used_nodes (m : pool_mgr_t) (i : Nat) (v : Option Nat) :
    (set_prev m i v).used_nodes = m.used_nodes := rfl
@[simp] theorem set_prev_gap_ix (m : pool_mgr_t) (i : Nat) (v : Option Nat) :
    (set_prev m i v).gap_ix = m.gap_ix := rfl
@[simp] theorem set_prev_gap_ix_capacity (m : pool_mgr_t) (i : Nat) (v : Option Nat) :
    (set_prev m i v).gap_ix_capacity = m.gap_ix_capacity := rfl
@[simp] theorem set_prev_blocks (m : pool_mgr_t) (i : Nat) (v : Option Nat) :
    (set_prev m i v).blocks = note_write m.blocks m.blocks.node_heap_len i := rfl
@[simp] theorem set_gap_pool (m : pool_mgr_t) (i : Nat) (g : gap_t) :
    (set_gap m i g).pool = m.pool := rfl
@[simp] theorem set_gap_node_heap (m : pool_mgr_t) (i : Nat) (g : gap_t) :
    (set_gap m i g).node_heap = m.node_heap := rfl
@[simp] theorem set_gap_total_nodes (m : pool_mgr_t) (i : Nat) (g : gap_t) :
    (set_gap m i g).total_nodes = m.total_nodes := rfl
@[simp] theorem set_gap_used_nodes (m : pool_mgr_t) (i : Nat) (g : gap_t) :
    (set_gap m i g).used_nodes = m.used_nodes := rfl
@[simp] theorem set_gap_gap_ix (m : pool_mgr_t) (i : Nat) (g : gap_t) :
    (set_gap m i g).gap_ix = setAt m.gap_ix i g := rfl
@[simp] theorem set_gap_gap_ix_capacity (m : pool_mgr_t) (i : Nat) (g : gap_t) :
    (set_gap m i g).gap_ix_capacity = m.gap_ix_capacity := rfl
@[simp] theorem set_gap_blocks (m : pool_mgr_t) (i : Nat) (g : gap_t) :
    (set_gap m i g).blocks = note_write m.blocks m.blocks.gap_ix_len i := rfl
@[simp] theorem set_gap_node_pool (m : pool_mgr_t) (i : Nat) (v : Option Nat) :
    (set_gap_node m i v).pool = m.pool := rfl
@[simp] theorem set_gap_node_node_heap (m : pool_mgr_t) (i : Nat) (v : Option Nat) :
    (set_gap_node m i v).node_heap = m.node_heap := rfl
@[simp] theorem set_gap_node_total_nodes (m : pool_mgr_t) (i : Nat) (v : Option Nat) :
    (set_gap_node m i v).total_nodes = m.total_nodes := rfl
@[simp] theorem set_gap_node_used_nodes (m : pool_mgr_t) (i : Nat) (v : Option Nat) :
    (set_gap_node m i v).used_nodes = m.used_nodes := rfl
@[simp] theorem set_gap_node_gap_ix (m : pool_mgr_t) (i : Nat) (v : Option Nat) :
    (set_gap_node m i v).gap_ix = setAt m.gap_ix i { m.gap_ix i with node := v } := rfl
@[simp] theorem set_gap_node_gap_ix_capacity (m : pool_mgr_t) (i : Nat) (v : Option Nat) :
    (set_gap_node m i v).gap_ix_capacity = m.gap_ix_capacity := rfl
@[simp] theorem set_gap_node_blocks (m : pool_mgr_t) (i : Nat) (v : Option Nat) :
    (set_gap_node m i v).blocks = note_write m.blocks m.blocks.gap_ix_len i := rfl
@[simp] theorem set_gap_size_pool (m : pool_mgr_t) (i v : Nat) :
    (set_gap_size m i v).pool = m.pool := rfl
@[simp] theorem set_gap_size_node_heap (m : pool_mgr_t) (i v : Nat) :
    (set_gap_size m i v).node_heap = m.node_heap := rfl
@[simp] theorem set_gap_size_total_nodes (m : pool_mgr_t) (i v : Nat) :
    (set_gap_size m i v).total_nodes = m.total_nodes := rfl
@[simp] theorem set_gap_size_used_nodes (m : pool_mgr_t) (i v : Nat) :
    (set_gap_size m i v).used_nodes = m.used_nodes := rfl
@[simp] theorem set_gap_size_gap_ix (m : pool_mgr_t) (i v : Nat) :
    (set_gap_size m i v).gap_ix = setAt m.gap_ix i { m.gap_ix i with size := v } := rfl
@[simp] theorem set_gap_size_gap_ix_capacity (m : pool_mgr_t) (i v : Nat) :
    (set_gap_size m i v).gap_ix_capacity = m.gap_ix_capacity := rfl
@[simp] theorem set_gap_size_blocks (m : pool_mgr_t) (i v : Nat) :
    (set_gap_size m i v).blocks = note_write m.blocks m.blocks.gap_ix_len i := rfl
@[simp] theorem set_gap_ix_capacity_pool (m : pool_mgr_t) (v : Nat) :
    (set_gap_ix_capacity m v).pool = m.pool := rfl
@[simp] theorem set_gap_ix_capacity_node_heap (m : pool_mgr_t) (v : Nat) :
    (set_gap_ix_capacity m v).node_heap = m.node_heap := rfl
@[simp] theorem set_gap_ix_capacity_total_nodes (m : pool_mgr_t) (v : Nat) :
    (set_gap_ix_capacity m v).total_nodes = m.total_nodes := rfl
@[simp] theorem set_gap_ix_capacity_used_nodes (m : pool_mgr_t) (v : Nat) :
    (set_gap_ix_capacity m v).used_nodes = m.used_nodes := rfl
@[simp] theorem set_gap_ix_capacity_gap_ix (m : pool_mgr_t) (v : Nat) :
    (set_gap_ix_capacity m v).gap_ix = m.gap_ix := rfl
@[simp] theorem set_gap_ix_capacity_gap_ix_capacity (m : pool_mgr_t) (v : Nat) :
    (set_gap_ix_capacity m v).gap_ix_capacity = v := rfl
@[simp] theorem set_gap_ix_capacity_blocks (m : pool_mgr_t) (v : Nat) :
    (set_gap_ix_capacity m v).blocks = m.blocks := rfl
@[simp] theorem set_total_nodes_pool (m : pool_mgr_t) (v : Nat) :
    (set_total_nodes m v).pool = m.pool := rfl
@[simp] theorem set_total_nodes_node_heap (m : pool_mgr_t) (v : Nat) :
    (set_total_nodes m v).node_heap = m.node_heap := rfl
@[simp] theorem set_total_nodes_total_nodes (m : pool_mgr_t) (v : Nat) :
    (set_total_nodes m v).total_nodes = v := rfl
@[simp] theorem set_total_nodes_used_nodes (m : pool_mgr_t) (v : Nat) :
    (set_total_nodes m v).used_nodes = m.used_nodes := rfl
@[simp] theorem set_total_nodes_gap_ix (m : pool_mgr_t) (v : Nat) :
    (set_total_nodes m v).gap_ix = m.gap_ix := rfl
@[simp] theorem set_total_nodes_gap_ix_capacity (m : pool_mgr_t) (v : Nat) :
    (set_total_nodes m v).gap_ix_capacity = m.gap_ix_capacity := rfl
@[simp] theorem set_total_nodes_blocks (m : pool_mgr_t) (v : Nat) :
    (set_total_nodes m v).blocks = m.blocks := rfl
@[simp] theorem set_used_nodes_pool (m : pool_mgr_t) (v : Nat) :
    (set_used_nodes m v).pool = m.pool := rfl
@[simp] theorem set_used_nodes_node_heap (m : pool_mgr_t) (v : Nat) :
    (set_used_nodes m v).node_heap = m.node_heap := rfl
@[simp] theorem set_used_nodes_total_nodes (m : pool_mgr_t) (v : Nat) :
    (set_used_nodes m v).total_nodes = m.total_nodes := rfl
@[simp] theorem set_used_nodes_used_nodes (m : pool_mgr_t) (v : Nat) :
    (set_used_nodes m v).used_nodes = v := rfl
@[simp] theorem set_used_nodes_gap_ix (m : pool_mgr_t) (v : Nat) :
    (set_used_nodes m v).gap_ix = m.gap_ix := rfl
@[simp] theorem set_used_nodes_gap_ix_capacity (m : pool_mgr_t) (v : Nat) :
    (set_used_nodes m v).gap_ix_capacity = m.gap_ix_capacity := rfl
@[simp] theorem set_used_nodes_blocks (m : pool_mgr_t) (v : Nat) :
    (set_used_nodes m v).blocks = m.blocks := rfl
@[simp] theorem set_num_gaps_pool (m : pool_mgr_t) (v : Nat) :
    (set_num_gaps m v).pool = { m.pool with num_gaps := v } := rfl
@[simp] theorem set_num_gaps_node_heap (m : pool_mgr_t) (v : Nat) :
    (set_num_gaps m v).node_heap = m.node_heap := rfl
@[simp] theorem set_num_gaps_total_nodes (m : pool_mgr_t) (v : Nat) :
    (set_num_gaps m v).total_nodes = m.total_nodes := rfl
@[simp] theorem set_num_gaps_used_nodes (m : pool_mgr_t) (v : Nat) :
    (set_num_gaps m v).used_nodes = m.used_nodes := rfl
@[simp] theorem set_num_gaps_gap_ix (m : pool_mgr_t) (v : Nat) :
    (set_num_gaps m v).gap_ix = m.gap_ix := rfl
@[simp] theorem set_num_gaps_gap_ix_capacity (m : pool_mgr_t) (v : Nat) :
    (set_num_gaps m v).gap_ix_capacity = m.gap_ix_capacity := rfl
@[simp] theorem set_num_gaps_blocks (m : pool_mgr_t) (v : Nat) :
    (set_num_gaps m v).blocks = m.blocks := rfl
@[simp] theorem set_num_allocs_pool (m : pool_mgr_t) (v : Nat) :
    (set_num_allocs m v).pool = { m.pool with num_allocs := v } := rfl
@[simp] theorem set_num_allocs_node_heap (m : pool_mgr_t) (v : Nat) :
    (set_num_allocs m v).node_heap = m.node_heap := rfl
@[simp] theorem set_num_allocs_total_nodes (m : pool_mgr_t) (v : Nat) :
    (set_num_allocs m v).total_nodes = m.total_nodes := rfl
@[simp] theorem set_num_allocs_used_nodes (m : pool_mgr_t) (v : Nat) :
    (set_num_allocs m v).used_nodes = m.used_nodes := rfl
@[simp] theorem set_num_allocs_gap_ix (m : pool_mgr_t) (v : Nat) :
    (set_num_allocs m v).gap_ix = m.gap_ix := rfl
@[simp] theorem set_num_allocs_gap_ix_capacity (m : pool_mgr_t) (v : Nat) :
    (set_num_allocs m v).gap_ix_capacity = m.gap_ix_capacity := rfl
@[simp] theorem set_num_allocs_blocks (m : pool_mgr_t) (v : Nat) :
    (set_num_allocs m v).blocks = m.blocks := rfl
@[simp] theorem set_alloc_size_pool (m : pool_mgr_t) (v : Nat) :
    (set_alloc_size m v).pool = { m.pool with alloc_size := v } := rfl
@[simp] theorem set_alloc_size_node_heap (m : pool_mgr_t) (v : Nat) :
    (set_alloc_size m v).node_heap = m.node_heap := rfl
@[simp] theorem set_alloc_size_total_nodes (m : pool_mgr_t) (v : Nat) :
    (set_alloc_size m v).total_nodes = m.total_nodes := rfl
@[simp] theorem set_alloc_size_used_nodes (m : pool_mgr_t) (v : Nat) :
    (set_alloc_size m v).used_nodes = m.used_nodes := rfl
@[simp] theorem set_alloc_size_gap_ix (m : pool_mgr_t) (v : Nat) :
    (set_alloc_size m v).gap_ix = m.gap_ix := rfl
@[simp] theorem set_alloc_size_gap_ix_capacity (m : pool_mgr_t) (v : Nat) :
    (set_alloc_size m v).gap_ix_capacity = m.gap_ix_capacity := rfl
@[simp] theorem set_alloc_size_blocks (m : pool_mgr_t) (v : Nat) :
    (set_alloc_size m v).blocks = m.blocks := rfl
@[simp] theorem set_total_size_pool (m : pool_mgr_t) (v : Nat) :
    (set_total_size m v).pool = { m.pool with total_size := v } := rfl
@[simp] theorem set_total_size_node_heap (m : pool_mgr_t) (v : Nat) :
    (set_total_size m v).node_heap = m.node_heap := rfl
@[simp] theorem set_total_size_total_nodes (m : pool_mgr_t) (v : Nat) :
    (set_total_size m v).total_nodes = m.total_nodes := rfl
@[simp] theorem set_total_size_used_nodes (m : pool_mgr_t) (v : Nat) :
    (set_total_size m v).used_nodes = m.used_nodes := rfl
@[simp] theorem set_total_size_gap_ix (m : pool_mgr_t) (v : Nat) :
    (set_total_size m v).gap_ix = m.gap_ix := rfl
@[simp] theorem set_total_size_gap_ix_capacity (m : pool_mgr_t) (v : Nat) :
    (set_total_size m v).gap_ix_capacity = m.gap_ix_capacity := rfl
@[simp] theorem set_total_size_blocks (m : pool_mgr_t) (v : Nat) :
    (set_total_size m v).blocks = m.blocks := rfl
@[simp] theorem set_policy_pool (m : pool_mgr_t) (v : alloc_policy) :
    (set_policy m v).pool = { m.pool with policy := v } := rfl
@[simp] theorem set_policy_node_heap (m : pool_mgr_t) (v : alloc_policy) :
    (set_policy m v).node_heap = m.node_heap := rfl
@[simp] theorem set_policy_total_nodes (m : pool_mgr_t) (v : alloc_policy) :
    (set_policy m v).total_nodes = m.total_nodes := rfl
@[simp] theorem set_policy_used_nodes (m : pool_mgr_t) (v : alloc_policy) :
    (set_policy m v).used_nodes = m.used_nodes := rfl
@[simp] theorem set_policy_gap_ix (m : pool_mgr_t) (v : alloc_policy) :
    (set_policy m v).gap_ix = m.gap_ix := rfl
@[simp] theorem set_policy_gap_ix_capacity (m : pool_mgr_t) (v : alloc_policy) :
    (set_policy m v).gap_ix_capacity = m.gap_ix_capacity := rfl
@[simp] theorem set_policy_blocks (m : pool_mgr_t) (v : alloc_policy) :
    (set_policy m v).blocks = m.blocks := rfl
@[simp] theorem alloc_node_heap_pool (m : pool_mgr_t) (len : Nat) :
    (alloc_node_heap m len).pool = m.pool := rfl
@[simp] theorem alloc_node_heap_node_heap (m : pool_mgr_t) (len : Nat) :
    (alloc_node_heap m len).node_heap = m.node_heap := rfl
@[simp] theorem alloc_node_heap_total_nodes (m : pool_mgr_t) (len : Nat) :
    (alloc_node_heap m len).total_nodes = m.total_nodes := rfl
@[simp] theorem alloc_node_heap_used_nodes (m : pool_mgr_t) (len : Nat) :
    (alloc_node_heap m len).used_nodes = m.used_nodes := rfl
@[simp] theorem alloc_node_heap_gap_ix (m : pool_mgr_t) (len : Nat) :
    (alloc_node_heap m len).gap_ix = m.gap_ix := rfl
@[simp] theorem alloc_node_heap_gap_ix_capacity (m : pool_mgr_t) (len : Nat) :
    (alloc_node_heap m len).gap_ix_capacity = m.gap_ix_capacity := rfl
@[simp] theorem alloc_node_heap_blocks (m : pool_mgr_t) (len : Nat) :
    (alloc_node_heap m len).blocks = { note_call m.blocks with node_heap_len := len } := rfl
@[simp] theorem alloc_gap_ix_pool (m : pool_mgr_t) (len : Nat) :
    (alloc_gap_ix m len).pool = m.pool := rfl
@[simp] theorem alloc_gap_ix_node_heap (m : pool_mgr_t) (len : Nat) :
    (alloc_gap_ix m len).node_heap = m.node_heap := rfl
@[simp] theorem alloc_gap_ix_total_nodes (m : pool_mgr_t) (len : Nat) :
    (alloc_gap_ix m len).total_nodes = m.total_nodes := rfl
@[simp] theorem alloc_gap_ix_used_nodes (m : pool_mgr_t) (len : Nat) :
    (alloc_gap_ix m len).used_nodes = m.used_nodes := rfl
@[simp] theorem alloc_gap_ix_gap_ix (m : pool_mgr_t) (len : Nat) :
    (alloc_gap_ix m len).gap_ix = m.gap_ix := rfl
@[simp] theorem alloc_gap_ix_gap_ix_capacity (m : pool_mgr_t) (len : Nat) :
    (alloc_gap_ix m len).gap_ix_capacity = m.gap_ix_capacity := rfl
@[simp] theorem alloc_gap_ix_blocks (m : pool_mgr_t) (len : Nat) :
    (alloc_gap_ix m len).blocks = { note_call m.blocks with gap_ix_len := len } := rfl

/-! ## The record of the blocks -/

@[simp] theorem note_write_node_heap_len (b : blocks_t) (len i : Nat) :
    (note_write b len i).node_heap_len = b.node_heap_len := by
  unfold note_write; split
  · rfl
  · split <;> rfl
@[simp] theorem note_write_gap_ix_len (b : blocks_t) (len i : Nat) :
    (note_write b len i).gap_ix_len = b.gap_ix_len := by
  unfold note_write; split
  · rfl
  · split <;> rfl
@[simp] theorem note_write_overrun (b : blocks_t) (len i : Nat) :
    (note_write b len i).overrun = (b.overrun || decide (i = len)) := by
  unfold note_write
  by_cases h1 : i < len
  · have : i ≠ len := by omega
    simp [h1, this]
  · by_cases h2 : i = len <;> simp [h1, h2]
@[simp] theorem note_write_stopped (b : blocks_t) (len i : Nat) :
    (note_write b len i).stopped = (b.stopped || decide (len < i)) := by
  unfold note_write
  by_cases h1 : i < len
  · have : ¬ len < i := by omega
    simp [h1, this]
  · by_cases h2 : i = len
    · have : ¬ len < i := by omega
      simp [h1, h2]
    · have : len < i := by omega
      simp [h1, h2, this]
@[simp] theorem note_call_node_heap_len (b : blocks_t) :
    (note_call b).node_heap_len = b.node_heap_len := by
  unfold note_call; split <;> rfl
@[simp] theorem note_call_gap_ix_len (b : blocks_t) :
    (note_call b).gap_ix_len = b.gap_ix_len := by
  unfold note_call; split <;> rfl
@[simp] theorem note_call_overrun (b : blocks_t) : (note_call b).overrun = b.overrun := by
  unfold note_call; split <;> rfl
@[simp] theorem note_call_stopped (b : blocks_t) :
    (note_call b).stopped = (b.stopped || b.overrun) := by
  unfold note_call
  by_cases h : b.overrun = true
  · simp [h]
  · simp [h]

theorem setAt_apply {α : Type} (f : Nat → α) (i k : Nat) (v : α) :
    setAt f i v k = if k = i then v else f k := rfl

theorem findFirstAux_hit (p : Nat → Bool) (n i : Nat) (h : p i = true) :
    findFirstAux p (n + 1) i = some i := by
  simp [findFirstAux, h]

theorem findFirstAux_miss (p : Nat → Bool) (n i : Nat) (h : p i = false) :
    findFirstAux p (n + 1) i = findFirstAux p n (i + 1) := by
  simp [findFirstAux, h]

theorem forLoopAux_inv {σ : Type} (P : σ → Prop) (body : Nat → σ → σ) (n i : Nat) (s : σ)
    (h0 : P s) (hstep : ∀ j t, i ≤ j → j < i + n → P t → P (body j t)) :
    P (forLoopAux body n i s) := by
  induction n generalizing i s with
  | zero => exact h0
  | succ n ih =>
    unfold forLoopAux
    apply ih
    · exact hstep i s (le_refl _) (by omega) h0
    · intro j t hj1 hj2 ht
      exact hstep j t (by omega) (by omega) ht

theorem forLoop_inv {σ : Type} (P : σ → Prop) (body : Nat → σ → σ) (lo hi : Nat) (s : σ)
    (h0 : P s) (hstep : ∀ j t, P t → P (body j t)) : P (forLoop lo hi body s) :=
  forLoopAux_inv P body _ _ s h0 (fun j t _ _ ht => hstep j t ht)

/-- A property of managers that every write to a gap-index entry keeps is kept by the
shifting loop of `_mem_remove_from_gap_ix`. -/
theorem shift_gap_ix_inv (P : pool_mgr_t → Prop) (hP : ∀ t i g, P t → P (set_gap t i g))
    (m : pool_mgr_t) (h : P m) : P (shift_gap_ix m) :=
  forLoop_inv P _ _ _ m h (fun j t ht => hP t _ _ ht)

/-- A property of managers that every write to a gap-index entry keeps is kept by
`_mem_sort_gap_ix`. -/
theorem sort_inv (P : pool_mgr_t → Prop) (hP : ∀ t i g, P t → P (set_gap t i g))
    (m : pool_mgr_t) (h : P m) : P (_mem_sort_gap_ix m).2 := by
  refine forLoop_inv P _ _ _ m h (fun i t ht => ?_)
  refine forLoop_inv P _ _ _ t ht (fun j u hu => ?_)
  unfold sort_step
  split
  · exact hP _ _ _ (hP _ _ _ hu)
  · exact hu

@[simp] theorem shift_gap_ix_pool (m : pool_mgr_t) : (shift_gap_ix m).pool = m.pool :=
  shift_gap_ix_inv (fun t => t.pool = m.pool) (fun _ _ _ h => h) m rfl
@[simp] theorem shift_gap_ix_node_heap (m : pool_mgr_t) :
    (shift_gap_ix m).node_heap = m.node_heap :=
  shift_gap_ix_inv (fun t => t.node_heap = m.node_heap) (fun _ _ _ h => h) m rfl
@[simp] theorem shift_gap_ix_total_nodes (m : pool_mgr_t) :
    (shift_gap_ix m).total_nodes = m.total_nodes :=
  shift_gap_ix_inv (fun t => t.total_nodes = m.total_nodes) (fun _ _ _ h => h) m rfl
@[simp] theorem shift_gap_ix_used_nodes (m : pool_mgr_t) :
    (shift_gap_ix m).used_nodes = m.used_nodes :=
  shift_gap_ix_inv (fun t => t.used_nodes = m.used_nodes) (fun _ _ _ h => h) m rfl
@[simp] theorem shift_gap_ix_gap_ix_capacity (m : pool_mgr_t) :
    (shift_gap_ix m).gap_ix_capacity = m.gap_ix_capacity :=
  shift_gap_ix_inv (fun t => t.gap_ix_capacity = m.gap_ix_capacity) (fun _ _ _ h => h) m rfl

@[simp] theorem sort_status (m : pool_mgr_t) : (_mem_sort_gap_ix m).1 = ALLOC_OK := rfl
@[simp] theorem sort_node_heap (m : pool_mgr_t) :
    (_mem_sort_gap_ix m).2.node_heap = m.node_heap :=
  sort_inv (fun t => t.node_heap = m.node_heap) (fun _ _ _ h => h) m rfl
@[simp] theorem sort_pool (m : pool_mgr_t) : (_mem_sort_gap_ix m).2.pool = m.pool :=
  sort_inv (fun t => t.pool = m.pool) (fun _ _ _ h => h) m rfl
@[simp] theorem sort_total_nodes (m : pool_mgr_t) :
    (_mem_sort_gap_ix m).2.total_nodes = m.total_nodes :=
  sort_inv (fun t => t.total_nodes = m.total_nodes) (fun _ _ _ h => h) m rfl
@[simp] theorem sort_used_nodes (m : pool_mgr_t) :
    (_mem_sort_gap_ix m).2.used_nodes = m.used_nodes :=
  sort_inv (fun t => t.used_nodes = m.used_nodes) (fun _ _ _ h => h) m rfl
@[simp] theorem sort_gap_ix_capacity (m : pool_mgr_t) :
    (_mem_sort_gap_ix m).2.gap_ix_capacity = m.gap_ix_capacity :=
  sort_inv (fun t => t.gap_ix_capacity = m.gap_ix_capacity) (fun _ _ _ h => h) m rfl

@[simp] theorem resize_gap_ix_status (m : pool_mgr_t) : (_mem_resize_gap_ix m).1 = ALLOC_OK := by
  unfold _mem_resize_gap_ix; split <;> rfl
@[simp] theorem resize_gap_ix_node_heap (m : pool_mgr_t) :
    (_mem_resize_gap_ix m).2.node_heap = m.node_heap := by
  unfold _mem_resize_gap_ix; split <;> rfl
@[simp] theorem resize_gap_ix_pool (m : pool_mgr_t) : (_mem_resize_gap_ix m).2.pool = m.pool := by
  unfold _mem_resize_gap_ix; split <;> rfl
@[simp] theorem resize_gap_ix_total_nodes (m : pool_mgr_t) :
    (_mem_resize_gap_ix m).2.total_nodes = m.total_nodes := by
  unfold _mem_resize_gap_ix; split <;> rfl
@[simp] theorem resize_gap_ix_used_nodes (m : pool_mgr_t) :
    (_mem_resize_gap_ix m).2.used_nodes = m.used_nodes := by
  unfold _mem_resize_gap_ix; split <;> rfl

@[simp] theorem add_status (m : pool_mgr_t) (s n : Nat) :
    (_mem_add_to_gap_ix m s n).1 = ALLOC_OK := by
  simp [_mem_add_to_gap_ix]

@[simp] theorem add_node_heap (m : pool_mgr_t) (s n : Nat) :
    (_mem_add_to_gap_ix m s n).2.node_heap
      = setAt m.node_heap n
          { alloc_record := { size := s, mem := (m.node_heap n).alloc_record.mem },
            used := 1, allocated := 0,
            next := (m.node_heap n).next, prev := (m.node_heap n).prev } := by
  funext k
  simp [_mem_add_to_gap_ix, setAt_apply]
  split <;> rfl

@[simp] theorem add_pool (m : pool_mgr_t) (s n : Nat) :
    (_mem_add_to_gap_ix m s n).2.pool = { m.pool with num_gaps := inc32 m.pool.num_gaps } := by
  simp [_mem_add_to_gap_ix]

@[simp] theorem add_total_nodes (m : pool_mgr_t) (s n : Nat) :
    (_mem_add_to_gap_ix m s n).2.total_nodes = m.total_nodes := by
  simp [_mem_add_to_gap_ix]

@[simp] theorem add_used_nodes (m : pool_mgr_t) (s n : Nat) :
    (_mem_add_to_gap_ix m s n).2.used_nodes = m.used_nodes := by
  simp [_mem_add_to_gap_ix]

@[simp] theorem remove_status (m : pool_mgr_t) (s n : Nat) :
    (_mem_remove_from_gap_ix m s n).1 = ALLOC_OK := by
  simp [_mem_remove_from_gap_ix]
@[simp] theorem remove_node_heap (m : pool_mgr_t) (s n : Nat) :
    (_mem_remove_from_gap_ix m s n).2.node_heap = m.node_heap := by
  simp [_mem_remove_from_gap_ix]
@[simp] theorem remove_total_nodes (m : pool_mgr_t) (s n : Nat) :
    (_mem_remove_from_gap_ix m s n).2.total_nodes = m.total_nodes := by
  simp [_mem_remove_from_gap_ix]
@[simp] theorem remove_used_nodes (m : pool_mgr_t) (s n : Nat) :
    (_mem_remove_from_gap_ix m s n).2.used_nodes = m.used_nodes := by
  simp [_mem_remove_from_gap_ix]
@[simp] theorem remove_pool (m : pool_mgr_t) (s n : Nat) :
    (_mem_remove_from_gap_ix m s n).2.pool
      = { m.pool with num_gaps := dec32 m.pool.num_gaps } := by
  simp [_mem_remove_from_gap_ix]
@[simp] theorem remove_gap_ix_capacity (m : pool_mgr_t) (s n : Nat) :
    (_mem_remove_from_gap_ix m s n).2.gap_ix_capacity = dec32 m.gap_ix_capacity := by
  simp [_mem_remove_from_gap_ix]

@[simp] theorem open_pool (T : Nat) (p : alloc_policy) :
    (pool_mgr_open T p).pool
      = { policy := p, total_size := T, alloc_size := T, num_allocs := 0, num_gaps := 1 } := by
  simp [pool_mgr_open]
@[simp] theorem open_total_nodes (T : Nat) (p : alloc_policy) :
    (pool_mgr_open T p).total_nodes = 40 := by
  simp [pool_mgr_open, MEM_NODE_HEAP_INIT_CAPACITY]
@[simp] theorem open_used_nodes (T : Nat) (p : alloc_policy) :
    (pool_mgr_open T p).used_nodes = 1 := by
  simp [pool_mgr_open]
theorem open_node_heap (T : Nat) (p : alloc_policy) :
    (pool_mgr_open T p).node_heap
      = setAt (fun _ => node_zero) 0
          { alloc_record := { size := T, mem := some 0 }, used := 1, allocated := 0,
            next := none, prev := none } := by
  funext k
  simp [pool_mgr_open, setAt_apply, pool_mgr_zero]
  split <;> simp [node_zero]

theorem findFirstAux_some (p : Nat → Bool) (n i h : Nat)
    (hf : findFirstAux p n i = some h) :
    i ≤ h ∧ h < i + n ∧ p h = true ∧ ∀ j, i ≤ j → j < h → p j = false := by
  induction n generalizing i with
  | zero => simp [findFirstAux] at hf
  | succ n ih =>
    unfold findFirstAux at hf
    by_cases hp : p i = true
    · simp [hp] at hf
      subst hf
      refine ⟨le_refl _, by omega, hp, ?_⟩
      intro j h1 h2
      omega
    · simp [hp] at hf
      obtain ⟨h1, h2, h3, h4⟩ := ih (i + 1) hf
      refine ⟨by omega, by omega, h3, ?_⟩
      intro j hj1 hj2
      by_cases hji : j = i
      · subst hji; simpa using hp
      · exact h4 j (by omega) hj2

theorem findFirst_some (p : Nat → Bool) (n h : Nat) (hf : findFirst p n = some h) :
    h < n ∧ p h = true ∧ ∀ j, j < h → p j = false := by
  obtain ⟨_, h2, h3, h4⟩ := findFirstAux_some p n 0 h hf
  exact ⟨by omega, h3, fun j hj => h4 j (Nat.zero_le _) hj⟩

theorem resize_node_heap_status (m : pool_mgr_t) : (_mem_resize_node_heap m).1 = ALLOC_OK := by
  unfold _mem_resize_node_heap; split <;> rfl
theorem resize_node_heap_node_heap (m : pool_mgr_t) :
    (_mem_resize_node_heap m).2.node_heap = m.node_heap := by
  unfold _mem_resize_node_heap; split <;> rfl
theorem resize_node_heap_pool (m : pool_mgr_t) :
    (_mem_resize_node_heap m).2.pool = m.pool := by
  unfold _mem_resize_node_heap; split <;> rfl

theorem new_alloc_handle (m : pool_mgr_t) (s h : Nat)
    (hh : (mem_new_alloc m s).1 = some h) :
    m.pool.num_gaps ≠ 0 ∧ policy_scan (_mem_resize_node_heap m).2 s = some h := by
  unfold mem_new_alloc at hh
  simp only [resize_node_heap_status] at hh
  split at hh
  · simp at hh
  · rename_i hg
    refine ⟨hg, ?_⟩
    simp only [ne_eq, not_true_eq_false, if_false] at hh
    split at hh
    · simp at hh
    · split at hh
      · simp at hh
      · rename_i node hnode
        simp only [remove_status, ne_eq, not_true_eq_false, if_false, add_status] at hh
        rw [hnode]
        split at hh
        · split at hh
          · simp at hh
          · simpa using hh
        · simpa using hh

theorem open_gap_ix_capacity (T : Nat) (p : alloc_policy) :
    (pool_mgr_open T p).gap_ix_capacity = 80 := by
  simp [pool_mgr_open, _mem_add_to_gap_ix, _mem_resize_gap_ix, pool_mgr_zero,
    MEM_GAP_IX_INIT_CAPACITY, dbl32]

theorem sort_one (m : pool_mgr_t) (h : m.pool.num_gaps = 1) :
    _mem_sort_gap_ix m = (ALLOC_OK, m) := by
  unfold _mem_sort_gap_ix
  rw [h]
  rfl

theorem add_fresh (T : Nat) :
    (_mem_add_to_gap_ix (pool_mgr_before_add T) T 0).2
      = set_num_gaps (set_gap_size (set_gap_node (set_size (set_allocated (set_used
          (set_gap_ix_capacity (alloc_gap_ix (pool_mgr_before_add T) 80) 80) 0 1) 0 0) 0 T)
          80 (some 0)) 80 T) 1 := by
  have h : _mem_resize_gap_ix (pool_mgr_before_add T)
      = (ALLOC_OK, set_gap_ix_capacity (alloc_gap_ix (pool_mgr_before_add T) 80) 80) := by
    unfold _mem_resize_gap_ix
    simp [pool_mgr_before_add, pool_mgr_zero, MEM_GAP_IX_INIT_CAPACITY, dbl32]
  unfold _mem_add_to_gap_ix
  rw [h]
  simp only [ne_eq, not_true_eq_false, if_false, set_gap_ix_capacity_gap_ix_capacity,
    set_used_gap_ix_capacity, set_allocated_gap_ix_capacity, set_size_gap_ix_capacity,
    set_gap_node_gap_ix_capacity]
  rw [sort_one]
  · simp [pool_mgr_before_add, pool_mgr_zero, inc32]
  · simp [pool_mgr_before_add, pool_mgr_zero, inc32]

theorem pool_mgr_open_eq_add (size : Nat) (policy : alloc_policy) :
    pool_mgr_open size policy
      = set_policy (set_num_allocs (set_num_gaps (set_total_size (set_alloc_size
          (set_used_nodes (set_total_nodes
            (_mem_add_to_gap_ix (pool_mgr_before_add size) size 0).2
            MEM_NODE_HEAP_INIT_CAPACITY) 1) size) size) 1) 0) policy := rfl

theorem open_gap_ix (T : Nat) (p : alloc_policy) :
    (pool_mgr_open T p).gap_ix = setAt (fun _ => gap_zero) 80 { size := T, node := some 0 } := by
  rw [pool_mgr_open_eq_add, add_fresh]
  funext k
  simp [pool_mgr_before_add, pool_mgr_zero, setAt_apply]
  split <;> simp [gap_zero]

/-- The blocks behind a freshly opened pool: 40 node cells, 80 gap-index cells, and the
gap-index block overrun by the entry written at index 80. -/
theorem open_blocks (T : Nat) (p : alloc_policy) :
    (pool_mgr_open T p).blocks
      = { node_heap_len := 40, gap_ix_len := 80, overrun := true, stopped := false } := by
  rw [pool_mgr_open_eq_add, add_fresh]
  simp [pool_mgr_before_add, pool_mgr_zero, note_write, note_call,
    MEM_NODE_HEAP_INIT_CAPACITY, MEM_GAP_IX_INIT_CAPACITY]

theorem best_fit_scan_none (m : pool_mgr_t) (s : Nat)
    (hzero : (m.gap_ix 0).node = none)
    (hnone : ∀ i, i < m.gap_ix_capacity → (m.gap_ix i).node = none) :
    best_fit_scan m s = none := by
  unfold best_fit_scan forLoop
  refine forLoopAux_inv (fun st : Option Nat × Nat => st.1 = none) _ _ _ _ hzero ?_
  intro j t _ hj ht
  unfold best_fit_step
  split
  · exact hnone j (by omega)
  · exact ht

theorem best_fit_fresh_null (T s : Nat) :
    mem_new_alloc (pool_mgr_open T BEST_FIT) s = (none, pool_mgr_open T BEST_FIT) := by
  have hscan : best_fit_scan (pool_mgr_open T BEST_FIT) s = none := by
    apply best_fit_scan_none
    · simp [open_gap_ix, setAt_apply, gap_zero]
    · intro i hi
      rw [open_gap_ix_capacity] at hi
      have : i ≠ 80 := by omega
      simp [open_gap_ix, setAt_apply, gap_zero, this]
  unfold mem_new_alloc
  simp [_mem_resize_node_heap, policy_scan, hscan]

theorem findFirstAux_index (a n i : Nat) :
    findFirstAux (fun k => decide (k = a)) n i = if i ≤ a ∧ a < i + n then some a else none := by
  induction n generalizing i with
  | zero =>
    unfold findFirstAux
    have : ¬ (i ≤ a ∧ a < i) := by omega
    simp [this]
  | succ n ih =>
    unfold findFirstAux
    by_cases hia : i = a
    · subst hia
      simp
    · rw [ih]
      simp only [hia, decide_False, Bool.false_eq_true, if_false]
      by_cases hc : i ≤ a ∧ a < i + (n + 1)
      · have hc2 : i + 1 ≤ a ∧ a < i + 1 + n := by omega
        simp [hc, hc2]
      · have hc2 : ¬ (i + 1 ≤ a ∧ a < i + 1 + n) := by omega
        simp [hc, hc2]

theorem findFirst_index (a n : Nat) :
    findFirst (fun k => decide (k = a)) n = if a < n then some a else none := by
  unfold findFirst
  rw [findFirstAux_index]
  simp

theorem first_fit_fresh_scan (T s : Nat) (hsT : s ≤ T) :
    first_fit_scan (pool_mgr_open T FIRST_FIT) s = some 0 := by
  unfold first_fit_scan findFirst
  rw [open_total_nodes]
  apply findFirstAux_hit
  simp [open_node_heap, setAt_apply, node_size, hsT]

/-! ## Evaluations of the code on concrete pools -/

open pool_call call_result

/-- Claim C1 (conservation), evaluated on a FIRST_FIT pool of 300 bytes.  After
`mem_new_alloc 100`, `mem_new_alloc 100` and `mem_del_alloc` of the first handle the sizes
along the list still sum to 300.  The next call, `mem_new_alloc 50`, succeeds on slot 0 and
links the new remainder node (slot 3) after it without giving it the old successor: the
list from slot 0 is then slots 0 and 3, and its sizes sum to 100, not to `total_size`. -/
theorem conservation_lost_on_inner_split :
    (run_calls (pool_mgr_open 300 FIRST_FIT) (calls_inner_gap ++ [new_alloc 50])).1
        = [handle (some 0), handle (some 1), status ALLOC_OK, handle (some 0)]
    ∧ list_size_sum (run_calls (pool_mgr_open 300 FIRST_FIT) calls_inner_gap).2 = 300
    ∧ (run_calls (pool_mgr_open 300 FIRST_FIT)
        (calls_inner_gap ++ [new_alloc 50])).2.pool.total_size = 300
    ∧ node_list (run_calls (pool_mgr_open 300 FIRST_FIT)
        (calls_inner_gap ++ [new_alloc 50])).2 = [0, 3]
    ∧ list_size_sum (run_calls (pool_mgr_open 300 FIRST_FIT)
        (calls_inner_gap ++ [new_alloc 50])).2 = 100 := by
  decide

/-- Claim C2 (round trip), evaluated for the BEST_FIT policy with T = 1024 and s = 100:
`mem_pool_open` succeeds and slot 0 is a live gap of 1024 bytes, yet `mem_new_alloc 100`
returns `NULL` and leaves the counters as they were. -/
theorem round_trip_best_fit_alloc_null :
    (mem_pool_open pool_store_ready 1024 BEST_FIT).map
        (fun r => ((mem_new_alloc r.1 100).1, (mem_new_alloc r.1 100).2.pool,
                   decide (live_gap r.1 0), node_size r.1 0))
      = some (none, { policy := BEST_FIT, total_size := 1024, alloc_size := 1024,
                      num_allocs := 0, num_gaps := 1 }, true, 1024) := by
  decide

/-- Claim C3 (open postcondition), evaluated for size 1024: `mem_pool_open` succeeds with
`total_size = 1024`, `num_gaps = 1`, `num_allocs = 0`, `used_nodes = 1` and slot 0 a used,
non-allocated node of 1024 bytes without neighbours, but `alloc_size` is 1024 rather than
0, and gap-index entry 0 is the zero entry: the entry (1024, slot 0) sits at index 80, the
value of `gap_ix_capacity` after the doubling that the insertion triggered. -/
theorem open_sets_alloc_size_and_entry_80 :
    (mem_pool_open pool_store_ready 1024 FIRST_FIT).map
        (fun r => (r.1.pool, r.1.used_nodes, r.1.total_nodes, r.1.node_heap 0))
      = some ({ policy := FIRST_FIT, total_size := 1024, alloc_size := 1024,
                num_allocs := 0, num_gaps := 1 }, 1, 40,
              { alloc_record := { size := 1024, mem := some 0 }, used := 1, allocated := 0,
                next := none, prev := none })
    ∧ (mem_pool_open pool_store_ready 1024 FIRST_FIT).map
        (fun r => (r.1.gap_ix_capacity, r.1.gap_ix 0, r.1.gap_ix 80, live_gap_entries r.1))
      = some (80, { size := 0, node := none }, { size := 1024, node := some 0 },
              [{ size := 0, node := none }]) := by
  decide

/-- Claim C4 (close condition), evaluated on a freshly opened pool of 1024 bytes: the pool
has exactly one gap and no allocation, and `mem_pool_close` returns `ALLOC_NOT_FREED`
without releasing it. -/
theorem close_of_fresh_pool_not_freed :
    (mem_pool_open pool_store_ready 1024 FIRST_FIT).map
        (fun r => (r.1.pool.num_gaps, r.1.pool.num_allocs, (mem_pool_close (some r.1)).1,
                   (mem_pool_close (some r.1)).2.isSome))
      = some (1, 0, ALLOC_NOT_FREED, true) := by
  decide

/-- Claim C6 (FIRST_FIT selection) fails as stated.  On the FIRST_FIT pool of 300 bytes
after `mem_new_alloc 100`, `mem_new_alloc 100`, `mem_del_alloc` of the first handle and
`mem_new_alloc 50`, the list from slot 0 is slots 0 and 3, the first live gap of at least
30 bytes in list order is slot 3, and `mem_new_alloc 30` chooses slot 2, the lowest
node-heap slot that is not allocated and large enough. -/
theorem first_fit_not_in_list_order :
    node_list (run_calls (pool_mgr_open 300 FIRST_FIT)
        (calls_inner_gap ++ [new_alloc 50])).2 = [0, 3]
    ∧ first_fit_by_list (run_calls (pool_mgr_open 300 FIRST_FIT)
        (calls_inner_gap ++ [new_alloc 50])).2 30 = some 3
    ∧ (mem_new_alloc (run_calls (pool_mgr_open 300 FIRST_FIT)
        (calls_inner_gap ++ [new_alloc 50])).2 30).1 = some 2
    ∧ ¬ ((mem_new_alloc (run_calls (pool_mgr_open 300 FIRST_FIT)
          (calls_inner_gap ++ [new_alloc 50])).2 30).1
        = first_fit_by_list (run_calls (pool_mgr_open 300 FIRST_FIT)
          (calls_inner_gap ++ [new_alloc 50])).2 30) := by
  decide

/-- Claim C7 (BEST_FIT selection), evaluated on a freshly opened BEST_FIT pool of 130
bytes: slot 0 is a live gap of 130 bytes, the only one and so the smallest one of at least
30 bytes, and `mem_new_alloc 30` chooses no node and returns `NULL`. -/
theorem best_fit_chooses_no_node :
    live_gap (pool_mgr_open 130 BEST_FIT) 0
    ∧ node_size (pool_mgr_open 130 BEST_FIT) 0 = 130
    ∧ (pool_mgr_open 130 BEST_FIT).pool.num_gaps = 1
    ∧ best_fit_scan (pool_mgr_open 130 BEST_FIT) 30 = none
    ∧ (mem_new_alloc (pool_mgr_open 130 BEST_FIT) 30).1 = none := by
  decide

/-- Claim C8 (NoFit), evaluated on the FIRST_FIT pool of 300 bytes after
`mem_new_alloc 100`, `mem_del_alloc` of it and `mem_new_alloc 300`: no slot holds a live
gap, so a request of 50 bytes is larger than every live gap, yet `mem_new_alloc 50` returns
slot 1, a retired slot, and `num_allocs` goes from 1 to 2 and `alloc_size` from 699 to
749. -/
theorem no_fit_served_from_retired_slot :
    (run_calls (pool_mgr_open 300 FIRST_FIT) calls_retired_slot).1
        = [handle (some 0), status ALLOC_OK, handle (some 0)]
    ∧ (∀ i < (run_calls (pool_mgr_open 300 FIRST_FIT) calls_retired_slot).2.total_nodes,
        ¬ live_gap (run_calls (pool_mgr_open 300 FIRST_FIT) calls_retired_slot).2 i)
    ∧ (mem_new_alloc (run_calls (pool_mgr_open 300 FIRST_FIT) calls_retired_slot).2 50).1
        = some 1
    ∧ (run_calls (pool_mgr_open 300 FIRST_FIT) calls_retired_slot).2.pool
        = { policy := FIRST_FIT, total_size := 300, alloc_size := 699, num_allocs := 1,
            num_gaps := 1 }
    ∧ (mem_new_alloc (run_calls (pool_mgr_open 300 FIRST_FIT) calls_retired_slot).2 50).2.pool
        = { policy := FIRST_FIT, total_size := 300, alloc_size := 749, num_allocs := 2,
            num_gaps := 1 } := by
  decide

/-- Claim C9 (allocate postcondition), evaluated on the FIRST_FIT pool of 300 bytes after
`mem_new_alloc 100`, `mem_del_alloc` of it and `mem_new_alloc 300`: `mem_new_alloc 50`
returns slot 1, which before the call was a retired slot (`used = 0`) and not a live gap,
and which after the call has `allocated = 0` and size 150 rather than `allocated = 1` and
size 50, and is named by gap-index entry 77. -/
theorem alloc_returns_retired_slot_as_gap :
    (mem_new_alloc (run_calls (pool_mgr_open 300 FIRST_FIT) calls_retired_slot).2 50).1
        = some 1
    ∧ (run_calls (pool_mgr_open 300 FIRST_FIT) calls_retired_slot).2.node_heap 1
        = { alloc_record := { size := 200, mem := none }, used := 0, allocated := 0,
            next := none, prev := none }
    ∧ ¬ live_gap (run_calls (pool_mgr_open 300 FIRST_FIT) calls_retired_slot).2 1
    ∧ (mem_new_alloc (run_calls (pool_mgr_open 300 FIRST_FIT) calls_retired_slot).2
        50).2.node_heap 1
        = { alloc_record := { size := 150, mem := none }, used := 1, allocated := 0,
            next := some 1, prev := some 1 }
    ∧ (mem_new_alloc (run_calls (pool_mgr_open 300 FIRST_FIT) calls_retired_slot).2
        50).2.gap_ix 77 = { size := 150, node := some 1 } := by
  decide

/-- Claim C10 (split), evaluated on the FIRST_FIT pool of 300 bytes after
`mem_new_alloc 100`, `mem_new_alloc 100` and `mem_del_alloc` of the first handle.  Slot 0
is a live gap g of G = 100 bytes whose successor is slot 1.  `mem_new_alloc 50` succeeds on
it and creates the remainder r in slot 3 with 50 bytes, `g.next = r` and `r.prev = g`; but
`r.next` is `NULL` and the former successor keeps `prev = g`, and the entry (50, r) is
written at index 77 of the gap index while the only live entry (index 0) is the zero
entry. -/
theorem split_does_not_relink_successor :
    live_gap (run_calls (pool_mgr_open 300 FIRST_FIT) calls_inner_gap).2 0
    ∧ (run_calls (pool_mgr_open 300 FIRST_FIT) calls_inner_gap).2.node_heap 0
        = { alloc_record := { size := 100, mem := some 0 }, used := 1, allocated := 0,
            next := some 1, prev := none }
    ∧ (mem_new_alloc (run_calls (pool_mgr_open 300 FIRST_FIT) calls_inner_gap).2 50).1
        = some 0
    ∧ (mem_new_alloc (run_calls (pool_mgr_open 300 FIRST_FIT) calls_inner_gap).2
        50).2.node_heap 0
        = { alloc_record := { size := 50, mem := some 0 }, used := 1, allocated := 1,
            next := some 3, prev := none }
    ∧ (mem_new_alloc (run_calls (pool_mgr_open 300 FIRST_FIT) calls_inner_gap).2
        50).2.node_heap 3
        = { alloc_record := { size := 50, mem := none }, used := 1, allocated := 0,
            next := none, prev := some 0 }
    ∧ ((mem_new_alloc (run_calls (pool_mgr_open 300 FIRST_FIT) calls_inner_gap).2
        50).2.node_heap 1).prev = some 0
    ∧ live_gap_entries (mem_new_alloc (run_calls (pool_mgr_open 300 FIRST_FIT)
        calls_inner_gap).2 50).2 = [{ size := 0, node := none }]
    ∧ (mem_new_alloc (run_calls (pool_mgr_open 300 FIRST_FIT) calls_inner_gap).2
        50).2.gap_ix 77 = { size := 50, node := some 3 } := by
  decide

/-! ## General theorems -/

theorem findFirstAux_eq_some (p : Nat → Bool) (n i h : Nat) (h1 : i ≤ h) (h2 : h < i + n)
    (hp : p h = true) (hlt : ∀ j, i ≤ j → j < h → p j = false) :
    findFirstAux p n i = some h := by
  induction n generalizing i with
  | zero => omega
  | succ n ih =>
    by_cases hih : i = h
    · subst hih
      exact findFirstAux_hit p n i hp
    · rw [findFirstAux_miss p n i (hlt i (le_refl _) (by omega))]
      exact ih (i + 1) (by omega) (by omega) (fun j hj1 hj2 => hlt j (by omega) hj2)

theorem findFirst_eq_some (p : Nat → Bool) (n h : Nat) (h2 : h < n)
    (hp : p h = true) (hlt : ∀ j, j < h → p j = false) :
    findFirst p n = some h :=
  findFirstAux_eq_some p n 0 h (Nat.zero_le _) (by omega) hp (fun j _ hj => hlt j hj)

theorem findFirstAux_none (p : Nat → Bool) (n i : Nat) (hf : findFirstAux p n i = none)
    (j : Nat) (h1 : i ≤ j) (h2 : j < i + n) : p j = false := by
  induction n generalizing i with
  | zero => omega
  | succ n ih =>
    unfold findFirstAux at hf
    by_cases hp : p i = true
    · simp [hp] at hf
    · simp [hp] at hf
      by_cases hji : j = i
      · subst hji; simpa using hp
      · exact ih (i + 1) hf (by omega) (by omega)

theorem findFirst_none (p : Nat → Bool) (n : Nat) (hf : findFirst p n = none)
    (j : Nat) (h : j < n) : p j = false :=
  findFirstAux_none p n 0 hf j (Nat.zero_le _) (by omega)

theorem int_of_size_t_small (x : Nat) (h : x < 2147483648) : int_of_size_t x = (x : Int) := by
  unfold int_of_size_t
  have hx : x % 4294967296 = x := Nat.mod_eq_of_lt (by omega)
  rw [hx]
  simp [h]

theorem size_t_of_int_natCast (x : Nat) (h : x < 18446744073709551616) :
    size_t_of_int (x : Int) = x := by
  unfold size_t_of_int
  have : (x : Int) % 18446744073709551616 = (x : Int) := by
    apply Int.emod_eq_of_lt <;> omega
  rw [this]
  simp

theorem resize_pool_store_status (store : pool_store_t) :
    (_mem_resize_pool_store store).1 = ALLOC_OK := by
  unfold _mem_resize_pool_store; split <;> rfl

theorem mem_pool_open_mgr (store store2 : pool_store_t) (size : Nat) (policy : alloc_policy)
    (mgr : pool_mgr_t) (hopen : mem_pool_open store size policy = some (mgr, store2)) :
    mgr = pool_mgr_open size policy := by
  unfold mem_pool_open at hopen
  split at hopen
  · simp at hopen
  · simp [resize_pool_store_status] at hopen
    exact hopen.1.symm

theorem close_not_freed_iff (mgr : pool_mgr_t) :
    (mem_pool_close (some mgr)).1 = ALLOC_NOT_FREED
      ↔ (mgr.pool.num_gaps = 1 ∨ mgr.pool.num_allocs ≠ 0) := by
  unfold mem_pool_close
  by_cases h1 : mgr.pool.num_gaps = 1
  · simp [h1]
  · by_cases h2 : mgr.pool.num_allocs = 0
    · simp [h1, h2]
    · simp [h1, h2]

/-- Claim C6 (FIRST_FIT selection) as amended.  For every state of a FIRST_FIT pool and
every request size, a node that `mem_new_alloc` returns is a node-heap slot below
`total_nodes` that before the call had `allocated = 0` and a size of at least the request,
and no live gap of at least the request sits in a lower node-heap slot: the scan follows
the node-heap slots, not the linked list. -/
theorem first_fit_lowest_heap_slot (mgr : pool_mgr_t) (size h : Nat)
    (hpol : mgr.pool.policy = FIRST_FIT) (hh : (mem_new_alloc mgr size).1 = some h) :
    h < (_mem_resize_node_heap mgr).2.total_nodes
    ∧ (mgr.node_heap h).allocated = 0
    ∧ size ≤ node_size mgr h
    ∧ ∀ j, j < h → ¬ (live_gap mgr j ∧ size ≤ node_size mgr j) := by
  obtain ⟨_, hscan⟩ := new_alloc_handle mgr size h hh
  unfold policy_scan at hscan
  rw [resize_node_heap_pool, hpol] at hscan
  simp only [first_fit_scan, node_size, resize_node_heap_node_heap] at hscan
  obtain ⟨h1, h2, h3⟩ := findFirst_some _ _ _ hscan
  simp only [decide_eq_true_eq] at h2
  refine ⟨h1, h2.1, h2.2, ?_⟩
  intro j hj hc
  have := h3 j hj
  simp only [decide_eq_false_iff_not] at this
  exact this ⟨hc.1.2, hc.2⟩

/-- Claim C6 as amended, on the FIRST_FIT pool of 300 bytes after `mem_new_alloc 100`,
`mem_new_alloc 100`, `mem_del_alloc` of the first handle and `mem_new_alloc 50`, for a
request of 30 bytes, which returns slot 2. -/
theorem first_fit_lowest_heap_slot_witness :
    2 < (_mem_resize_node_heap (run_calls (pool_mgr_open 300 FIRST_FIT)
          (calls_inner_gap ++ [new_alloc 50])).2).2.total_nodes
    ∧ ((run_calls (pool_mgr_open 300 FIRST_FIT)
          (calls_inner_gap ++ [new_alloc 50])).2.node_heap 2).allocated = 0
    ∧ 30 ≤ node_size (run_calls (pool_mgr_open 300 FIRST_FIT)
          (calls_inner_gap ++ [new_alloc 50])).2 2
    ∧ ∀ j, j < 2 → ¬ (live_gap (run_calls (pool_mgr_open 300 FIRST_FIT)
          (calls_inner_gap ++ [new_alloc 50])).2 j
        ∧ 30 ≤ node_size (run_calls (pool_mgr_open 300 FIRST_FIT)
          (calls_inner_gap ++ [new_alloc 50])).2 j) :=
  first_fit_lowest_heap_slot
    (run_calls (pool_mgr_open 300 FIRST_FIT) (calls_inner_gap ++ [new_alloc 50])).2 30 2
    (by decide) (by decide)

/-! ## Freeing, the gap index, inspection and capacities -/

theorem del_merge_next_pool (m : pool_mgr_t) (d : Nat) (nx : Option Nat) :
    (del_merge_next m d nx).1.pool = m.pool := by
  unfold del_merge_next
  split
  · rfl
  · split
    · simp only []
      split <;> simp
    · rfl

theorem del_merge_next_total_nodes (m : pool_mgr_t) (d : Nat) (nx : Option Nat) :
    (del_merge_next m d nx).1.total_nodes = m.total_nodes := by
  unfold del_merge_next
  split
  · rfl
  · split
    · simp only []
      split <;> simp
    · rfl

theorem del_merge_prev_status (m : pool_mgr_t) (d : Nat) (nx pv e : Option Nat) :
    (del_merge_prev m d nx pv e).1 = ALLOC_OK := by
  unfold del_merge_prev
  split
  · rfl
  · split
    · simp
    · rfl

theorem del_merge_prev_pool (m : pool_mgr_t) (d : Nat) (nx pv e : Option Nat) :
    (del_merge_prev m d nx pv e).2.1.pool.policy = m.pool.policy
    ∧ (del_merge_prev m d nx pv e).2.1.pool.total_size = m.pool.total_size
    ∧ (del_merge_prev m d nx pv e).2.1.pool.alloc_size = m.pool.alloc_size
    ∧ (del_merge_prev m d nx pv e).2.1.pool.num_allocs = m.pool.num_allocs := by
  unfold del_merge_prev
  split
  · simp
  · split
    · simp only [remove_status, ne_eq, not_true_eq_false, if_false]
      split
      · split <;> simp
      · simp
    · simp

theorem del_alloc_inside_heap (m : pool_mgr_t) (a : Nat) (h : a < m.total_nodes) :
    (mem_del_alloc m a).1 = ALLOC_OK := by
  unfold mem_del_alloc
  simp only [findFirst_index, h, if_true, del_merge_prev_status, ne_eq, not_true_eq_false,
    if_false]
  split <;> simp

theorem del_alloc_pool (m : pool_mgr_t) (a : Nat) (h : a < m.total_nodes) :
    (mem_del_alloc m a).2.pool.policy = m.pool.policy
    ∧ (mem_del_alloc m a).2.pool.total_size = m.pool.total_size
    ∧ (mem_del_alloc m a).2.pool.alloc_size = dec64 m.pool.alloc_size
    ∧ (mem_del_alloc m a).2.pool.num_allocs = dec32 m.pool.num_allocs := by
  unfold mem_del_alloc
  simp only [findFirst_index, h, if_true, del_merge_prev_status, ne_eq, not_true_eq_false,
    if_false]
  split
  · simp only [add_status, ne_eq, not_true_eq_false, if_false, add_pool]
    have := del_merge_prev_pool
      (del_merge_next (set_alloc_size (set_num_allocs (set_allocated m a 0)
          (dec32 (set_allocated m a 0).pool.num_allocs))
          (dec64 (set_num_allocs (set_allocated m a 0)
            (dec32 (set_allocated m a 0).pool.num_allocs)).pool.alloc_size)) a
        (m.node_heap a).next).1 a (m.node_heap a).next (m.node_heap a).prev
      (del_merge_next (set_alloc_size (set_num_allocs (set_allocated m a 0)
          (dec32 (set_allocated m a 0).pool.num_allocs))
          (dec64 (set_num_allocs (set_allocated m a 0)
            (dec32 (set_allocated m a 0).pool.num_allocs)).pool.alloc_size)) a
        (m.node_heap a).next).2
    simp only [del_merge_next_pool] at this
    simpa using this
  · have := del_merge_prev_pool
      (del_merge_next (set_alloc_size (set_num_allocs (set_allocated m a 0)
          (dec32 (set_allocated m a 0).pool.num_allocs))
          (dec64 (set_num_allocs (set_allocated m a 0)
            (dec32 (set_allocated m a 0).pool.num_allocs)).pool.alloc_size)) a
        (m.node_heap a).next).1 a (m.node_heap a).next (m.node_heap a).prev
      (del_merge_next (set_alloc_size (set_num_allocs (set_allocated m a 0)
          (dec32 (set_allocated m a 0).pool.num_allocs))
          (dec64 (set_num_allocs (set_allocated m a 0)
            (dec32 (set_allocated m a 0).pool.num_allocs)).pool.alloc_size)) a
        (m.node_heap a).next).2
    simp only [del_merge_next_pool] at this
    simpa using this

theorem del_merge_prev_total_nodes (m : pool_mgr_t) (d : Nat) (nx pv e : Option Nat) :
    (del_merge_prev m d nx pv e).2.1.total_nodes = m.total_nodes := by
  unfold del_merge_prev
  split
  · rfl
  · split
    · simp only [remove_status, ne_eq, not_true_eq_false, if_false]
      split
      · split <;> simp
      · simp
    · rfl

theorem del_alloc_total_nodes (m : pool_mgr_t) (a : Nat) :
    (mem_del_alloc m a).2.total_nodes = m.total_nodes := by
  unfold mem_del_alloc
  simp only [findFirst_index, del_merge_prev_status, ne_eq, not_true_eq_false, if_false]
  by_cases h : a < m.total_nodes
  · simp only [h, if_true]
    split
    · simp [add_total_nodes, del_merge_prev_total_nodes, del_merge_next_total_nodes]
    · simp [del_merge_prev_total_nodes, del_merge_next_total_nodes]
  · simp [h]

theorem resize_node_heap_used_nodes (m : pool_mgr_t) :
    (_mem_resize_node_heap m).2.used_nodes = m.used_nodes := by
  unfold _mem_resize_node_heap; split <;> rfl

theorem new_alloc_nodes (m : pool_mgr_t) (s : Nat) :
    ((mem_new_alloc m s).2.total_nodes = m.total_nodes
        ∧ (mem_new_alloc m s).2.used_nodes = m.used_nodes)
    ∨ ((mem_new_alloc m s).2.total_nodes = (_mem_resize_node_heap m).2.total_nodes
        ∧ ((mem_new_alloc m s).2.used_nodes = m.used_nodes
            ∨ (mem_new_alloc m s).2.used_nodes = inc32 m.used_nodes)) := by
  unfold mem_new_alloc
  simp only [resize_node_heap_status, ne_eq, not_true_eq_false, if_false]
  split
  · left; exact ⟨rfl, rfl⟩
  · right
    split
    · exact ⟨rfl, Or.inl (resize_node_heap_used_nodes m)⟩
    · split
      · exact ⟨rfl, Or.inl (resize_node_heap_used_nodes m)⟩
      · simp only [remove_status, ne_eq, not_true_eq_false, if_false, add_status]
        split
        · split
          · simp [resize_node_heap_used_nodes]
          · simp [resize_node_heap_used_nodes]
        · simp [resize_node_heap_used_nodes]

/-- Claim C11 (free accounting), evaluated on a FIRST_FIT pool of 300 bytes after
`mem_new_alloc 100`: slot 0 is allocated with 100 bytes and `alloc_size` is 400; the free of
slot 0 returns `ALLOC_OK`, takes `num_allocs` from 1 to 0 and keeps `total_size` and
`policy`, but `alloc_size` becomes 399: it is decreased by 1, not by the 100 bytes freed. -/
theorem free_decrements_alloc_size_by_one :
    (run_calls (pool_mgr_open 300 FIRST_FIT) [new_alloc 100]).1 = [handle (some 0)]
    ∧ ((run_calls (pool_mgr_open 300 FIRST_FIT) [new_alloc 100]).2.node_heap 0).allocated = 1
    ∧ node_size (run_calls (pool_mgr_open 300 FIRST_FIT) [new_alloc 100]).2 0 = 100
    ∧ (run_calls (pool_mgr_open 300 FIRST_FIT) [new_alloc 100]).2.pool
        = { policy := FIRST_FIT, total_size := 300, alloc_size := 400, num_allocs := 1,
            num_gaps := 1 }
    ∧ (mem_del_alloc (run_calls (pool_mgr_open 300 FIRST_FIT) [new_alloc 100]).2 0).1
        = ALLOC_OK
    ∧ (mem_del_alloc (run_calls (pool_mgr_open 300 FIRST_FIT) [new_alloc 100]).2 0).2.pool
        = { policy := FIRST_FIT, total_size := 300, alloc_size := 399, num_allocs := 0,
            num_gaps := 2 } := by
  decide

/-- Claim C12 (InvalidAllocation) fails as stated.  On a FIRST_FIT pool of 300 bytes,
after `mem_new_alloc 100` and `mem_del_alloc` of the handle, a second `mem_del_alloc` of
the same handle returns `ALLOC_OK` again and changes the counters: `num_allocs` wraps from
0 to 4294967295 and `alloc_size` goes from 399 to 398. -/
theorem double_free_succeeds :
    (run_calls (pool_mgr_open 300 FIRST_FIT)
        [new_alloc 100, del_alloc 0, del_alloc 0]).1
      = [handle (some 0), status ALLOC_OK, status ALLOC_OK]
    ∧ (run_calls (pool_mgr_open 300 FIRST_FIT) [new_alloc 100, del_alloc 0]).2.pool
      = { policy := FIRST_FIT, total_size := 300, alloc_size := 399, num_allocs := 0,
          num_gaps := 2 }
    ∧ (run_calls (pool_mgr_open 300 FIRST_FIT)
        [new_alloc 100, del_alloc 0, del_alloc 0]).2.pool
      = { policy := FIRST_FIT, total_size := 300, alloc_size := 398,
          num_allocs := 4294967295, num_gaps := 2 } := by
  decide

/-- Claim C12 (InvalidAllocation) as amended.  For every pool state and every handle that
does not point into the node heap of the pool (its slot index is not below `total_nodes`),
`mem_del_alloc` returns `ALLOC_FAIL` and leaves the manager state unchanged. -/
theorem del_alloc_outside_heap (mgr : pool_mgr_t) (alloc : Nat)
    (h : mgr.total_nodes ≤ alloc) :
    mem_del_alloc mgr alloc = (ALLOC_FAIL, mgr) := by
  unfold mem_del_alloc
  have : ¬ alloc < mgr.total_nodes := by omega
  simp [findFirst_index, this]

/-- Claim C12 as amended, on a freshly opened pool of 300 bytes (40 node-heap slots) and
the handle of slot 40. -/
theorem del_alloc_outside_heap_witness :
    mem_del_alloc (pool_mgr_open 300 FIRST_FIT) 40
      = (ALLOC_FAIL, pool_mgr_open 300 FIRST_FIT) :=
  del_alloc_outside_heap (pool_mgr_open 300 FIRST_FIT) 40 (by decide)

/-- Claim C13 (one insertion per free), evaluated on a FIRST_FIT pool of 300 bytes after
two allocations of 100 bytes.  Slot 0 is allocated, has no predecessor and an allocated
successor, and `num_gaps` is 1.  Its free returns `ALLOC_OK` and makes slot 0 a live gap,
but inserts nothing: `num_gaps` is still 1 and the gap index (entries 0 to 80) is what it
was. -/
theorem free_without_merge_inserts_nothing :
    (run_calls (pool_mgr_open 300 FIRST_FIT) calls_inner_gap).1
      = [handle (some 0), handle (some 1), status ALLOC_OK]
    ∧ (run_calls (pool_mgr_open 300 FIRST_FIT)
        [new_alloc 100, new_alloc 100]).2.node_heap 0
      = { alloc_record := { size := 100, mem := some 0 }, used := 1, allocated := 1,
          next := some 1, prev := none }
    ∧ ((run_calls (pool_mgr_open 300 FIRST_FIT)
        [new_alloc 100, new_alloc 100]).2.node_heap 1).allocated = 1
    ∧ (run_calls (pool_mgr_open 300 FIRST_FIT)
        [new_alloc 100, new_alloc 100]).2.pool.num_gaps = 1
    ∧ (run_calls (pool_mgr_open 300 FIRST_FIT) calls_inner_gap).2.pool.num_gaps = 1
    ∧ live_gap (run_calls (pool_mgr_open 300 FIRST_FIT) calls_inner_gap).2 0
    ∧ (∀ i < 81, (run_calls (pool_mgr_open 300 FIRST_FIT) calls_inner_gap).2.gap_ix i
          = (run_calls (pool_mgr_open 300 FIRST_FIT)
              [new_alloc 100, new_alloc 100]).2.gap_ix i) := by
  decide

/-- Claim C15 (freed space is reusable), evaluated on a FIRST_FIT pool of 300 bytes after
three allocations of 100 bytes and the free of the middle one: slot 1 is a live gap of 100
bytes, but the free inserted nothing, `num_gaps` is 0, and `mem_new_alloc 50` returns
`NULL`. -/
theorem freed_gap_not_reusable :
    (run_calls (pool_mgr_open 300 FIRST_FIT) (calls_three_allocs ++ [del_alloc 1])).1
      = [handle (some 0), handle (some 1), handle (some 2), status ALLOC_OK]
    ∧ live_gap (run_calls (pool_mgr_open 300 FIRST_FIT)
        (calls_three_allocs ++ [del_alloc 1])).2 1
    ∧ node_size (run_calls (pool_mgr_open 300 FIRST_FIT)
        (calls_three_allocs ++ [del_alloc 1])).2 1 = 100
    ∧ (run_calls (pool_mgr_open 300 FIRST_FIT)
        (calls_three_allocs ++ [del_alloc 1])).2.pool.num_gaps = 0
    ∧ (mem_new_alloc (run_calls (pool_mgr_open 300 FIRST_FIT)
        (calls_three_allocs ++ [del_alloc 1])).2 50).1 = none := by
  decide

/-- Claim C16 (gap/index correspondence), evaluated on two reachable states.  On a freshly
opened pool of 1024 bytes slot 0 is a live gap, `num_gaps` is 1, and the only live entry
of the gap index is the zero entry, which names no node.  On a pool of 300 bytes after
`mem_new_alloc 100` and the free of it, slot 0 is the only live gap and there are two live
entries, both the zero entry. -/
theorem gap_index_misses_live_gap :
    live_gap (pool_mgr_open 1024 FIRST_FIT) 0
    ∧ node_size (pool_mgr_open 1024 FIRST_FIT) 0 = 1024
    ∧ (pool_mgr_open 1024 FIRST_FIT).pool.num_gaps = 1
    ∧ live_gap_entries (pool_mgr_open 1024 FIRST_FIT) = [{ size := 0, node := none }]
    ∧ (run_calls (pool_mgr_open 300 FIRST_FIT) [new_alloc 100, del_alloc 0]).1
        = [handle (some 0), status ALLOC_OK]
    ∧ (∀ i < (run_calls (pool_mgr_open 300 FIRST_FIT)
          [new_alloc 100, del_alloc 0]).2.total_nodes,
        live_gap (run_calls (pool_mgr_open 300 FIRST_FIT) [new_alloc 100, del_alloc 0]).2 i
          ↔ i = 0)
    ∧ live_gap_entries (run_calls (pool_mgr_open 300 FIRST_FIT)
        [new_alloc 100, del_alloc 0]).2
        = [{ size := 0, node := none }, { size := 0, node := none }] := by
  decide

/-- Claim C17 (sorted invariant), evaluated on the insertion that `mem_pool_open` performs
for a pool of 1024 bytes.  Before it the gap index has no live entry.  The call returns
`ALLOC_OK`; afterwards the only live entry is the zero entry, and the inserted entry
(1024, slot 0) is not among the live entries: it is at index 80, the value of
`gap_ix_capacity`. -/
theorem first_insertion_not_among_live_entries :
    live_gap_entries (pool_mgr_before_add 1024) = []
    ∧ sizes_sorted (live_gap_entries (pool_mgr_before_add 1024))
    ∧ (_mem_add_to_gap_ix (pool_mgr_before_add 1024) 1024 0).1 = ALLOC_OK
    ∧ live_gap_entries (_mem_add_to_gap_ix (pool_mgr_before_add 1024) 1024 0).2
        = [{ size := 0, node := none }]
    ∧ ({ size := 1024, node := some 0 } : gap_t)
        ∉ live_gap_entries (_mem_add_to_gap_ix (pool_mgr_before_add 1024) 1024 0).2
    ∧ (_mem_add_to_gap_ix (pool_mgr_before_add 1024) 1024 0).2.gap_ix_capacity = 80
    ∧ (_mem_add_to_gap_ix (pool_mgr_before_add 1024) 1024 0).2.gap_ix 80
        = { size := 1024, node := some 0 } := by
  decide

/-- The sorting pass of `_mem_add_to_gap_ix` on a gap index whose capacity equals its
number of live entries, so that the new entry is appended right after them: with the live
entries of sizes 5 and 9, the insertion of (3, slot 3) leaves the sizes 5, 9, 3. -/
theorem sort_leaves_appended_entry_last :
    sizes_sorted (live_gap_entries pool_mgr_two_gaps)
    ∧ live_gap_entries (_mem_add_to_gap_ix pool_mgr_two_gaps 3 3).2
        = [{ size := 5, node := some 1 }, { size := 9, node := some 2 },
           { size := 3, node := some 3 }]
    ∧ ¬ sizes_sorted (live_gap_entries (_mem_add_to_gap_ix pool_mgr_two_gaps 3 3).2) := by
  decide

/-- Claim C19 (capacities only grow), evaluated on a freshly opened pool of 300 bytes:
`mem_new_alloc 100` succeeds and leaves `total_nodes` at 40, but takes `gap_ix_capacity`
from 80 to 79, the decrement that `_mem_remove_from_gap_ix` makes when it removes an
entry. -/
theorem remove_decrements_gap_ix_capacity :
    (pool_mgr_open 300 FIRST_FIT).gap_ix_capacity = 80
    ∧ (pool_mgr_open 300 FIRST_FIT).total_nodes = 40
    ∧ (mem_new_alloc (pool_mgr_open 300 FIRST_FIT) 100).1 = some 0
    ∧ (mem_new_alloc (pool_mgr_open 300 FIRST_FIT) 100).2.gap_ix_capacity = 79
    ∧ (mem_new_alloc (pool_mgr_open 300 FIRST_FIT) 100).2.total_nodes = 40
    ∧ (_mem_remove_from_gap_ix (pool_mgr_open 300 FIRST_FIT) 100 0).2.gap_ix_capacity = 79 := by
  decide

/-! ## Overruns and the calls that do not return -/

theorem set_gap_overrun (m : pool_mgr_t) (i : Nat) (g : gap_t)
    (h : m.blocks.overrun = true) : (set_gap m i g).blocks.overrun = true := by
  simp [h]

@[simp] theorem resize_gap_ix_overrun (m : pool_mgr_t) :
    (_mem_resize_gap_ix m).2.blocks.overrun = m.blocks.overrun := by
  unfold _mem_resize_gap_ix
  split <;> simp

@[simp] theorem resize_node_heap_overrun (m : pool_mgr_t) :
    (_mem_resize_node_heap m).2.blocks.overrun = m.blocks.overrun := by
  unfold _mem_resize_node_heap
  split <;> simp

theorem sort_overrun (m : pool_mgr_t) (h : m.blocks.overrun = true) :
    (_mem_sort_gap_ix m).2.blocks.overrun = true :=
  sort_inv (fun t => t.blocks.overrun = true) (fun t i g ht => set_gap_overrun t i g ht) m h

theorem shift_gap_ix_overrun (m : pool_mgr_t) (h : m.blocks.overrun = true) :
    (shift_gap_ix m).blocks.overrun = true :=
  shift_gap_ix_inv (fun t => t.blocks.overrun = true) (fun t i g ht => set_gap_overrun t i g ht)
    m h

theorem add_overrun (m : pool_mgr_t) (s n : Nat) (h : m.blocks.overrun = true) :
    (_mem_add_to_gap_ix m s n).2.blocks.overrun = true := by
  unfold _mem_add_to_gap_ix
  simp only [resize_gap_ix_status, ne_eq, not_true_eq_false, if_false]
  apply sort_overrun
  simp [h]

theorem remove_overrun (m : pool_mgr_t) (s n : Nat) (h : m.blocks.overrun = true) :
    (_mem_remove_from_gap_ix m s n).2.blocks.overrun = true := by
  unfold _mem_remove_from_gap_ix
  simp [shift_gap_ix_overrun m h]

theorem new_alloc_overrun (m : pool_mgr_t) (s : Nat) (h : m.blocks.overrun = true) :
    (mem_new_alloc m s).2.blocks.overrun = true := by
  unfold mem_new_alloc
  simp only [resize_node_heap_status, ne_eq, not_true_eq_false, if_false, remove_status,
    add_status]
  split
  · exact h
  · split
    · simp [h]
    · split
      · simp [h]
      · split
        · split
          · simp only [set_size_blocks, set_allocated_blocks, note_write_overrun,
              Bool.or_eq_true]
            left; left
            apply remove_overrun
            simp [h]
          · apply add_overrun
            simp only [set_prev_blocks, set_next_blocks, set_used_nodes_blocks,
              set_size_blocks, set_allocated_blocks, note_write_overrun, Bool.or_eq_true]
            left; left; left; left
            apply remove_overrun
            simp [h]
        · simp only [set_size_blocks, set_allocated_blocks, note_write_overrun,
            Bool.or_eq_true]
          left; left
          apply remove_overrun
          simp [h]

theorem del_merge_next_overrun (m : pool_mgr_t) (d : Nat) (nx : Option Nat)
    (h : m.blocks.overrun = true) : (del_merge_next m d nx).1.blocks.overrun = true := by
  unfold del_merge_next
  split
  · exact h
  · split
    · simp only []
      split <;> simp [h]
    · exact h

theorem del_merge_prev_overrun (m : pool_mgr_t) (d : Nat) (nx pv e : Option Nat)
    (h : m.blocks.overrun = true) : (del_merge_prev m d nx pv e).2.1.blocks.overrun = true := by
  unfold del_merge_prev
  split
  · exact h
  · split
    · simp only [remove_status, ne_eq, not_true_eq_false, if_false]
      split
      · split <;> simp [remove_overrun, h]
      · simp [remove_overrun, h]
    · exact h

theorem del_alloc_overrun (m : pool_mgr_t) (a : Nat) (h : m.blocks.overrun = true) :
    (mem_del_alloc m a).2.blocks.overrun = true := by
  unfold mem_del_alloc
  simp only [findFirst_index, del_merge_prev_status, ne_eq, not_true_eq_false, if_false,
    add_status]
  by_cases ha : a < m.total_nodes
  · simp only [ha, if_true]
    split
    · apply add_overrun
      apply del_merge_prev_overrun
      apply del_merge_next_overrun
      simp [h]
    · apply del_merge_prev_overrun
      apply del_merge_next_overrun
      simp [h]
  · simp [ha, h]

theorem run_calls_overrun (m : pool_mgr_t) (calls : List pool_call)
    (h : m.blocks.overrun = true) : (run_calls m calls).2.blocks.overrun = true := by
  induction calls generalizing m with
  | nil => exact h
  | cons c cs ih =>
    unfold run_calls
    apply ih
    cases c with
    | new_alloc size => exact new_alloc_overrun m size h
    | del_alloc alloc => exact del_alloc_overrun m alloc h

theorem inspect_overrun (m : pool_mgr_t) (h : m.blocks.overrun = true) :
    mem_inspect_pool m = none := by
  unfold mem_inspect_pool
  simp [h]

theorem close_overrun (m : pool_mgr_t) (h : m.blocks.overrun = true) :
    (mem_pool_close_run (some m)).map Prod.fst ≠ some ALLOC_OK := by
  unfold mem_pool_close_run
  simp only [note_call_stopped, h, Bool.or_true, if_true]
  split
  · simp
  · split
    · simp
    · split
      · simp
      · simp

theorem close_run_eq (pool : Option pool_mgr_t) (r : alloc_status × Option pool_mgr_t)
    (h : mem_pool_close_run pool = some r) : r = mem_pool_close pool := by
  cases pool with
  | none =>
    simp only [mem_pool_close_run, Option.some.injEq] at h
    rw [← h]
    rfl
  | some mgr =>
    simp only [mem_pool_close_run] at h
    simp only [mem_pool_close]
    by_cases h0 : mgr.blocks.stopped = true
    · simp [h0] at h
    · by_cases h1 : mgr.pool.num_gaps = 1
      · simp only [h0, h1, if_true, Bool.false_eq_true, if_false, Option.some.injEq] at h
        simp only [h1, if_true]
        exact h.symm
      · by_cases h2 : mgr.pool.num_allocs = 0
        · simp only [h0, h1, h2, ne_eq, not_true_eq_false, if_false, Bool.false_eq_true] at h
          simp only [h1, h2, ne_eq, not_true_eq_false, if_false]
          split at h
          · simp at h
          · simp only [Option.some.injEq] at h
            exact h.symm
        · simp only [h0, h1, h2, ne_eq, not_false_eq_true, if_true, if_false,
            Bool.false_eq_true, Option.some.injEq] at h
          simp only [h1, h2, ne_eq, not_false_eq_true, if_true, if_false]
          exact h.symm

/-- The call sequences of the evaluations above run to their end: none of their calls is
stopped, so the caller sees the results stated there. -/
theorem evaluated_scenarios_return :
    (run_calls_checked (pool_mgr_open 300 FIRST_FIT)
        (calls_inner_gap ++ [new_alloc 50, new_alloc 30])).isSome = true
    ∧ (run_calls_checked (pool_mgr_open 300 FIRST_FIT)
        (calls_retired_slot ++ [new_alloc 50])).isSome = true
    ∧ (run_calls_checked (pool_mgr_open 300 FIRST_FIT)
        (calls_three_allocs ++ [del_alloc 1, new_alloc 50])).isSome = true
    ∧ (run_calls_checked (pool_mgr_open 300 FIRST_FIT)
        [new_alloc 100, del_alloc 0, del_alloc 0]).isSome = true
    ∧ (returned (mem_new_alloc (pool_mgr_open 130 BEST_FIT) 30)).isSome = true
    ∧ (returned (mem_new_alloc (pool_mgr_open 1024 BEST_FIT) 100)).isSome = true
    ∧ (returned (_mem_add_to_gap_ix pool_mgr_two_gaps 3 3)).isSome = true :=
  ⟨by decide, by decide, by decide, by decide, by decide, by decide, by decide⟩

/-- Allocation and free under FIRST_FIT on a pool of 1024 bytes with a request of 100
bytes: both calls return, the allocation gives slot 0 with size 100, the free gives
`ALLOC_OK`, and afterwards the list is slot 0 alone, a node of 1024 bytes that is not
allocated; `mem_inspect_pool` does not return. -/
theorem first_fit_alloc_free :
    (run_calls_checked (pool_mgr_open 1024 FIRST_FIT) [new_alloc 100]).map
        (fun r => (r.1, node_size r.2 0))
      = some ([handle (some 0)], 100)
    ∧ (run_calls_checked (pool_mgr_open 1024 FIRST_FIT) [new_alloc 100, del_alloc 0]).map
        (fun r => (r.1, node_list r.2, list_segments r.2, r.2.used_nodes))
      = some ([handle (some 0), status ALLOC_OK], [0], [{ size := 1024, allocated := 0 }], 1)
    ∧ mem_inspect_pool
        (run_calls (pool_mgr_open 1024 FIRST_FIT) [new_alloc 100, del_alloc 0]).2 = none := by
  decide

/-- The loop of `mem_inspect_pool` reads the slots 0 to `used_nodes - 1` whether they are
in use or not.  On a FIRST_FIT pool of 300 bytes after three allocations of 100 bytes, the
free of the second and the free of the first, the list is slots 0 and 2, with the segments
(200, free) and (100, allocated); these are also the live slots in node-heap order, and
slot 1 is retired.  The loop would copy slots 0 and 1, that is (200, free) and
(100, free). -/
theorem inspect_loop_copies_retired_slot :
    node_list (run_calls (pool_mgr_open 300 FIRST_FIT)
        (calls_three_allocs ++ [del_alloc 1, del_alloc 0])).2 = [0, 2]
    ∧ list_segments (run_calls (pool_mgr_open 300 FIRST_FIT)
        (calls_three_allocs ++ [del_alloc 1, del_alloc 0])).2
      = [{ size := 200, allocated := 0 }, { size := 100, allocated := 1 }]
    ∧ live_slots (run_calls (pool_mgr_open 300 FIRST_FIT)
        (calls_three_allocs ++ [del_alloc 1, del_alloc 0])).2 = [0, 2]
    ∧ ((run_calls (pool_mgr_open 300 FIRST_FIT)
        (calls_three_allocs ++ [del_alloc 1, del_alloc 0])).2.node_heap 1).used = 0
    ∧ inspect_segments (run_calls (pool_mgr_open 300 FIRST_FIT)
        (calls_three_allocs ++ [del_alloc 1, del_alloc 0])).2
      = ([{ size := 200, allocated := 0 }, { size := 100, allocated := 0 }], 2) := by
  decide

/-- Claim C5 (close rejection scenario), evaluated at T = 1024 and s = 100 under
FIRST_FIT.  `mem_pool_open` leaves a gap-index block of 80 entries and has written the
entry of the pool at index 80, the cell behind the block.  After `mem_new_alloc 100` the
close returns `ALLOC_NOT_FREED` and keeps the pool.  The free returns `ALLOC_OK` and leaves
`num_allocs = 0` and `num_gaps = 2`, so the next close passes both tests and reaches its
calls of `free`, which do not return: the close does not return `ALLOC_OK`.  More
generally, on a pool of any size and policy and after any sequence of `mem_new_alloc` and
`mem_del_alloc` calls, no call of `mem_pool_close` returns `ALLOC_OK`. -/
theorem close_after_free_does_not_return :
    (mem_pool_open pool_store_ready 1024 FIRST_FIT).map
        (fun r => (r.1.blocks.gap_ix_len, r.1.gap_ix_capacity, r.1.gap_ix 80,
                   r.1.blocks.overrun, r.1.blocks.stopped))
      = some (80, 80, { size := 1024, node := some 0 }, true, false)
    ∧ (run_calls_checked (pool_mgr_open 1024 FIRST_FIT) [new_alloc 100]).map (fun r => r.1)
      = some [handle (some 0)]
    ∧ (mem_pool_close_run
        (some (run_calls (pool_mgr_open 1024 FIRST_FIT) [new_alloc 100]).2)).map
        (fun r => (r.1, r.2.isSome))
      = some (ALLOC_NOT_FREED, true)
    ∧ (run_calls_checked (pool_mgr_open 1024 FIRST_FIT) [new_alloc 100, del_alloc 0]).map
        (fun r => (r.1, r.2.pool.num_allocs, r.2.pool.num_gaps))
      = some ([handle (some 0), status ALLOC_OK], 0, 2)
    ∧ (mem_pool_close_run
        (some (run_calls (pool_mgr_open 1024 FIRST_FIT) [new_alloc 100, del_alloc 0]).2)).map
        (fun r => r.1)
      = none
    ∧ ∀ (T : Nat) (policy : alloc_policy) (calls : List pool_call),
        (mem_pool_close_run (some (run_calls (pool_mgr_open T policy) calls).2)).map Prod.fst
          ≠ some ALLOC_OK :=
  ⟨by decide, by decide, by decide, by decide, by decide,
    fun T policy calls => close_overrun _ (run_calls_overrun _ _ (by rw [open_blocks]))⟩

/-- Claim C14 (no-merge-loss), evaluated on a FIRST_FIT pool of 300 bytes after three
allocations of 100 bytes (slots 0, 1, 2, adjacent in that order), which leave
`num_gaps = 0` and a gap-index block of 80 entries.  In the order first, second: the free
of slot 0 returns `ALLOC_OK`, makes slot 0 a gap and leaves `num_gaps = 0`; the free of
slot 1 then finds its predecessor a gap and calls `_mem_remove_from_gap_ix`, whose
decrement takes `num_gaps` from 0 to 4294967295, the index of its next write: the call
does not return.  In the order second, first: both frees return `ALLOC_OK`, slot 0 holds
the merged gap of 200 bytes, slot 1 is retired and slot 2 is allocated with 100 bytes, but
`mem_inspect_pool` does not return.  In neither order is a segment array reported. -/
theorem adjacent_frees_then_no_report :
    (run_calls_checked (pool_mgr_open 300 FIRST_FIT) calls_three_allocs).map
        (fun r => (r.1, r.2.pool.num_gaps, r.2.blocks.gap_ix_len))
      = some ([handle (some 0), handle (some 1), handle (some 2)], 0, 80)
    ∧ (run_calls_checked (pool_mgr_open 300 FIRST_FIT)
        (calls_three_allocs ++ [del_alloc 0])).map
        (fun r => (r.1, r.2.pool.num_gaps, dec32 r.2.pool.num_gaps, decide (live_gap r.2 0),
                   (r.2.node_heap 1).prev))
      = some ([handle (some 0), handle (some 1), handle (some 2), status ALLOC_OK], 0,
              4294967295, true, some 0)
    ∧ (returned (mem_del_alloc (run_calls (pool_mgr_open 300 FIRST_FIT)
        (calls_three_allocs ++ [del_alloc 0])).2 1)).map (fun r => r.1) = none
    ∧ (run_calls_checked (pool_mgr_open 300 FIRST_FIT)
        (calls_three_allocs ++ [del_alloc 0, del_alloc 1])).map (fun r => r.1) = none
    ∧ (run_calls_checked (pool_mgr_open 300 FIRST_FIT)
        (calls_three_allocs ++ [del_alloc 1, del_alloc 0])).map
        (fun r => (r.1, segment_of r.2 0, (r.2.node_heap 1).used, segment_of r.2 2,
                   node_list r.2))
      = some ([handle (some 0), handle (some 1), handle (some 2), status ALLOC_OK,
               status ALLOC_OK],
              { size := 200, allocated := 0 }, 0, { size := 100, allocated := 1 }, [0, 2])
    ∧ mem_inspect_pool (run_calls (pool_mgr_open 300 FIRST_FIT)
        (calls_three_allocs ++ [del_alloc 1, del_alloc 0])).2 = none :=
  ⟨by decide, by decide, by decide, by decide, by decide, by decide⟩

/-- Claim C18 (inspect).  `mem_inspect_pool` returns no segment array at all: on a pool of
any size and policy, after any sequence of `mem_new_alloc` and `mem_del_alloc` calls, its
call of `calloc` does not return, because `mem_pool_open` has written the entry of the pool
behind the block of the gap index.  So it is on a freshly opened pool of 300 bytes, whose
list is the single node (300, free), and after two allocations of 100 bytes, when the list
has three nodes. -/
theorem inspect_never_returns :
    (∀ (T : Nat) (policy : alloc_policy) (calls : List pool_call),
        mem_inspect_pool (run_calls (pool_mgr_open T policy) calls).2 = none)
    ∧ (mem_pool_open pool_store_ready 300 FIRST_FIT).map
        (fun r => (r.1.blocks.gap_ix_len, r.1.gap_ix_capacity, r.1.gap_ix 80,
                   r.1.blocks.overrun, r.1.blocks.stopped))
      = some (80, 80, { size := 300, node := some 0 }, true, false)
    ∧ (mem_pool_open pool_store_ready 300 FIRST_FIT).map
        (fun r => (list_segments r.1, mem_inspect_pool r.1))
      = some ([{ size := 300, allocated := 0 }], none)
    ∧ (run_calls_checked (pool_mgr_open 300 FIRST_FIT) [new_alloc 100, new_alloc 100]).map
        (fun r => (r.1, list_segments r.2, mem_inspect_pool r.2))
      = some ([handle (some 0), handle (some 1)],
              [{ size := 100, allocated := 1 }, { size := 100, allocated := 1 },
               { size := 100, allocated := 0 }], none) :=
  ⟨fun T policy calls => inspect_overrun _ (run_calls_overrun _ _ (by rw [open_blocks])),
    by decide, by decide, by decide⟩

/-! ## The fill factor in single precision -/

/-- Claim C20 (node-heap headroom) fails as stated.  In the state with
`used_nodes = 31457279` and `total_nodes = 41943040`, which is inside the range of the
claim, `used_nodes` is below three quarters of `total_nodes`, yet `_mem_resize_node_heap`
doubles `total_nodes`: `(float) used_nodes` is 31457280, which is the product
`total_nodes * 0.75f`. -/
theorem resize_doubles_below_three_quarters :
    1 ≤ pool_mgr_large_heap.total_nodes
    ∧ pool_mgr_large_heap.total_nodes < 2147483648
    ∧ pool_mgr_large_heap.used_nodes ≤ pool_mgr_large_heap.total_nodes
    ∧ 4 * pool_mgr_large_heap.used_nodes < 3 * pool_mgr_large_heap.total_nodes
    ∧ (_mem_resize_node_heap pool_mgr_large_heap).1 = ALLOC_OK
    ∧ (_mem_resize_node_heap pool_mgr_large_heap).2.total_nodes
        = 2 * pool_mgr_large_heap.total_nodes
    ∧ float_round pool_mgr_large_heap.used_nodes = 31457280
    ∧ float_round (3 * float_round pool_mgr_large_heap.total_nodes) = 4 * 31457280 := by
  decide

/-- Claim C20 (node-heap headroom) as amended.  For every manager state with
1 <= `total_nodes` < 2^31 and `used_nodes` <= `total_nodes`: `_mem_resize_node_heap`
returns `ALLOC_OK` and doubles `total_nodes` exactly when the single-precision test
`used_nodes >= total_nodes * 0.75f` holds, which, unless three times `total_nodes`
reaches 2^24, is exactly when `used_nodes` is at least three quarters of `total_nodes`;
afterwards `used_nodes` < `total_nodes`, so the test `total_nodes < used_nodes` of
`mem_new_alloc` is false, `used_nodes + 1` is at most `total_nodes`, and after
`mem_new_alloc` of any size `used_nodes` <= `total_nodes`. -/
theorem resize_node_heap_headroom (mgr : pool_mgr_t) (h1 : 1 ≤ mgr.total_nodes)
    (h2 : mgr.total_nodes < 2147483648) (h3 : mgr.used_nodes ≤ mgr.total_nodes) :
    (_mem_resize_node_heap mgr).1 = ALLOC_OK
    ∧ (_mem_resize_node_heap mgr).2.total_nodes
        = (if fill_factor_reached mgr.used_nodes mgr.total_nodes then 2 * mgr.total_nodes
           else mgr.total_nodes)
    ∧ (16777216 ≤ 3 * mgr.total_nodes
        ∨ (fill_factor_reached mgr.used_nodes mgr.total_nodes
            ↔ 3 * mgr.total_nodes ≤ 4 * mgr.used_nodes))
    ∧ (_mem_resize_node_heap mgr).2.used_nodes < (_mem_resize_node_heap mgr).2.total_nodes
    ∧ ¬ ((_mem_resize_node_heap mgr).2.total_nodes < (_mem_resize_node_heap mgr).2.used_nodes)
    ∧ inc32 (_mem_resize_node_heap mgr).2.used_nodes
        ≤ (_mem_resize_node_heap mgr).2.total_nodes
    ∧ ∀ size, (mem_new_alloc mgr size).2.used_nodes
        ≤ (mem_new_alloc mgr size).2.total_nodes := by
  have htot : (_mem_resize_node_heap mgr).2.total_nodes
      = (if fill_factor_reached mgr.used_nodes mgr.total_nodes then 2 * mgr.total_nodes
         else mgr.total_nodes) := by
    unfold _mem_resize_node_heap dbl32
    split
    · simp only [set_total_nodes_total_nodes]
      split <;> omega
    · rfl
  have hexact : 16777216 ≤ 3 * mgr.total_nodes
      ∨ (fill_factor_reached mgr.used_nodes mgr.total_nodes
          ↔ 3 * mgr.total_nodes ≤ 4 * mgr.used_nodes) := by
    by_cases hb : 16777216 ≤ 3 * mgr.total_nodes
    · exact Or.inl hb
    · exact Or.inr (fill_factor_reached_small _ _ (by omega) (by omega))
  have hused := resize_node_heap_used_nodes mgr
  have hlt : mgr.used_nodes < (_mem_resize_node_heap mgr).2.total_nodes := by
    rw [htot]
    split
    · omega
    · rename_i hf
      by_cases he : mgr.used_nodes = mgr.total_nodes
      · rw [he] at hf
        exact absurd (fill_factor_reached_full _) hf
      · omega
  have hinc : inc32 mgr.used_nodes ≤ (_mem_resize_node_heap mgr).2.total_nodes := by
    have hb : (_mem_resize_node_heap mgr).2.total_nodes < 4294967296 := by
      rw [htot]; split <;> omega
    unfold inc32
    split <;> omega
  refine ⟨resize_node_heap_status mgr, htot, hexact, ?_, ?_, ?_, ?_⟩
  · rw [hused]; exact hlt
  · rw [hused]; omega
  · rw [hused]; exact hinc
  · intro size
    rcases new_alloc_nodes mgr size with ⟨ht, hu⟩ | ⟨ht, hu | hu⟩
    · rw [ht, hu]; exact h3
    · rw [ht, hu]; omega
    · rw [ht, hu]; exact hinc

/-- Claim C20 as amended, on a freshly opened pool of 300 bytes (`total_nodes = 40`,
`used_nodes = 1`). -/
theorem resize_node_heap_headroom_witness :
    (_mem_resize_node_heap (pool_mgr_open 300 FIRST_FIT)).1 = ALLOC_OK
    ∧ (_mem_resize_node_heap (pool_mgr_open 300 FIRST_FIT)).2.total_nodes
        = (if fill_factor_reached (pool_mgr_open 300 FIRST_FIT).used_nodes
              (pool_mgr_open 300 FIRST_FIT).total_nodes
           then 2 * (pool_mgr_open 300 FIRST_FIT).total_nodes
           else (pool_mgr_open 300 FIRST_FIT).total_nodes)
    ∧ (16777216 ≤ 3 * (pool_mgr_open 300 FIRST_FIT).total_nodes
        ∨ (fill_factor_reached (pool_mgr_open 300 FIRST_FIT).used_nodes
              (pool_mgr_open 300 FIRST_FIT).total_nodes
            ↔ 3 * (pool_mgr_open 300 FIRST_FIT).total_nodes
                ≤ 4 * (pool_mgr_open 300 FIRST_FIT).used_nodes))
    ∧ (_mem_resize_node_heap (pool_mgr_open 300 FIRST_FIT)).2.used_nodes
        < (_mem_resize_node_heap (pool_mgr_open 300 FIRST_FIT)).2.total_nodes
    ∧ ¬ ((_mem_resize_node_heap (pool_mgr_open 300 FIRST_FIT)).2.total_nodes
        < (_mem_resize_node_heap (pool_mgr_open 300 FIRST_FIT)).2.used_nodes)
    ∧ inc32 (_mem_resize_node_heap (pool_mgr_open 300 FIRST_FIT)).2.used_nodes
        ≤ (_mem_resize_node_heap (pool_mgr_open 300 FIRST_FIT)).2.total_nodes
    ∧ ∀ size, (mem_new_alloc (pool_mgr_open 300 FIRST_FIT) size).2.used_nodes
        ≤ (mem_new_alloc (pool_mgr_open 300 FIRST_FIT) size).2.total_nodes :=
  resize_node_heap_headroom (pool_mgr_open 300 FIRST_FIT) (by decide) (by decide) (by decide)

end MemPool
